import Mathlib

/-
Formal model of the subscription plan-change orchestrator in
`packages/server/api/src/app/ee/platform/platform-plan/stripe-helper.ts`
(the billing helper built around the Stripe API).

The stateful TypeScript operations are embedded as pure Lean functions:
the two provider reads (`subscriptions.retrieve`, `subscriptionSchedules.list`)
become explicit inputs, and the provider writes become an explicit list of
`StripeCall` values (the call trace).  A small state-transition function
`applyCall` gives the effect of each write on the provider's schedule store,
so that properties about successive calls can be stated.
-/

/-- Billing cycles, from the `BillingCycle` enum of `ee-shared`. -/
inductive BillingCycle
  | monthly
  | annual
deriving DecidableEq

/-- Plan names, from the `PlanName` enum of `shared` (modelled from the spec:
the enum itself is not part of the provided sources; the spec describes an
ordered family of base tiers plus a free tier). -/
inductive PlanName
  | free
  | plus
  | business
deriving DecidableEq

/-- Provider price identifiers.  Modelled from the spec: the catalog module
`platform-plan-helper` is not in the provided sources; per the spec every
(plan or addon kind, cycle) pair maps to exactly one price identifier and
identifiers differ per cycle, so price ids are one constructor per item kind,
indexed by cycle. -/
inductive PriceId
  | plusPlan (cycle : BillingCycle)
  | businessPlan (cycle : BillingCycle)
  | aiCredit (cycle : BillingCycle)
  | userSeat (cycle : BillingCycle)
  | projectAddon (cycle : BillingCycle)
  | activeFlow (cycle : BillingCycle)
deriving DecidableEq

/-- The billing cycle a price identifier is scoped to. -/
def PriceId.cycleOf : PriceId → BillingCycle
  | .plusPlan c => c
  | .businessPlan c => c
  | .aiCredit c => c
  | .userSeat c => c
  | .projectAddon c => c
  | .activeFlow c => c

/-- Catalog entry for the Plus base plan (per-cycle map, as used via
`PLUS_PLAN_PRICE_ID[cycle]` in the source). -/
def PLUS_PLAN_PRICE_ID : BillingCycle → PriceId := PriceId.plusPlan

/-- Catalog entry for the Business base plan. -/
def BUSINESS_PLAN_PRICE_ID : BillingCycle → PriceId := PriceId.businessPlan

/-- Catalog entry for the AI-credit item. -/
def AI_CREDIT_PRICE_ID : BillingCycle → PriceId := PriceId.aiCredit

/-- Catalog entry for the user-seat addon. -/
def USER_SEAT_PRICE_ID : BillingCycle → PriceId := PriceId.userSeat

/-- Catalog entry for the project addon. -/
def PROJECT_PRICE_ID : BillingCycle → PriceId := PriceId.projectAddon

/-- Catalog entry for the active-flow addon. -/
def ACTIVE_FLOW_PRICE_ID : BillingCycle → PriceId := PriceId.activeFlow

/-- A JavaScript runtime value as it appears in the price comparisons of the
source: either a price-id string or the whole per-cycle catalog record. -/
inductive JsVal
  | str (s : PriceId)
  | obj (record : BillingCycle → PriceId)

/-- SameValueZero equality used by `Array.prototype.includes`: a string never
equals a record object; two records are compared here by their entries (the
source only ever compares a record against strings, so this branch is inert). -/
def jsEqb : JsVal → JsVal → Bool
  | .str a, .str b => a = b
  | .obj f, .obj g => f .monthly = g .monthly && f .annual = g .annual
  | _, _ => false

/-- JavaScript `array.includes(v)` over runtime values. -/
def jsIncludes (xs : List JsVal) (v : JsVal) : Bool :=
  xs.any (fun x => jsEqb x v)

/-- One line item of a live subscription (`Stripe.SubscriptionItem`):
item id, price, optional quantity, and its current billing period. -/
structure SubscriptionItem where
  id : Nat
  price : PriceId
  quantity : Option Nat
  current_period_start : Nat
  current_period_end : Nat
deriving DecidableEq

/-- The observed state of a provider subscription. -/
structure Subscription where
  id : Nat
  customer : Nat
  items : List SubscriptionItem
  cancel_at : Option Nat
deriving DecidableEq

/-- The ambient clock: the unix bounds of the calendar month containing now
(`apDayjs().startOf('month')` / `endOf('month')`) and the dayjs month-addition
used by the trial-gift path (`apDayjs().add(n, 'months').unix()`). -/
structure Clock where
  monthStart : Nat
  monthEnd : Nat
  addMonths : Nat → Nat

/-- Result of `getSubscriptionCycleDates`. -/
structure CycleWindow where
  startDate : Nat
  endDate : Nat
  cancelDate : Option Nat
deriving DecidableEq

/-- Embedding of `getSubscriptionCycleDates`.  The source scans the items with
`[ACTIVE_FLOW_PRICE_ID].includes(item.price.id)`, i.e. it compares each price
id against the per-cycle catalog record itself (not against its entries);
`jsEqb` reproduces that SameValueZero comparison. -/
def getSubscriptionCycleDates (clock : Clock) (subscription : Subscription) : CycleWindow :=
  let relevantSubscriptionItem := subscription.items.find? (fun item =>
    jsIncludes [JsVal.obj ACTIVE_FLOW_PRICE_ID] (JsVal.str item.price))
  match relevantSubscriptionItem with
  | none =>
      { startDate := clock.monthStart, endDate := clock.monthEnd, cancelDate := none }
  | some item =>
      { startDate := item.current_period_start, endDate := item.current_period_end,
        cancelDate := subscription.cancel_at }

/-- One item of a subscription-schedule phase
(`Stripe.SubscriptionScheduleUpdateParams.Phase.Item`). -/
structure PhaseItem where
  price : PriceId
  quantity : Option Nat
deriving DecidableEq

/-- One phase of a subscription schedule. -/
structure Phase where
  items : List PhaseItem
  start_date : Nat
  end_date : Option Nat
deriving DecidableEq

/-- The end-of-schedule behavior submitted with a schedule update. -/
inductive EndBehavior
  | release
  | cancel
deriving DecidableEq

/-- Embedding of `buildPhaseItems`: base-plan item (quantity 1), AI-credit item
(no quantity), then each addon only when its quantity is positive. -/
def buildPhaseItems (cycle : BillingCycle) (plan : PlanName)
    (userSeats projects activeFlows : Nat) : List PhaseItem :=
  [ { price := if plan = PlanName.plus then PLUS_PLAN_PRICE_ID cycle
               else BUSINESS_PLAN_PRICE_ID cycle,
      quantity := some 1 },
    { price := AI_CREDIT_PRICE_ID cycle, quantity := none } ]
  ++ (if userSeats > 0 then
        [{ price := USER_SEAT_PRICE_ID cycle, quantity := some userSeats }] else [])
  ++ (if projects > 0 then
        [{ price := PROJECT_PRICE_ID cycle, quantity := some projects }] else [])
  ++ (if activeFlows > 0 then
        [{ price := ACTIVE_FLOW_PRICE_ID cycle, quantity := some activeFlows }] else [])

/-- Embedding of the phase-1 item computation of `updateSubscriptionSchedule`:
with an unchanged cycle the current items are copied price/quantity as-is;
with a cycle change the current item set is rebuilt under the old cycle's
prices, defaulting the current plan to Plus when no base item is recognised. -/
def currentPhaseItemsOf (subscription : Subscription)
    (currentCycle newCycle : BillingCycle) : List PhaseItem :=
  if currentCycle = newCycle then
    subscription.items.map (fun item => { price := item.price, quantity := item.quantity })
  else
    let currentPlan :=
      if subscription.items.any (fun item =>
          [PLUS_PLAN_PRICE_ID currentCycle, BUSINESS_PLAN_PRICE_ID currentCycle].contains item.price) then
        (if subscription.items.any (fun item => item.price = PLUS_PLAN_PRICE_ID currentCycle) then
          PlanName.plus
        else
          PlanName.business)
      else PlanName.plus
    let currentUserSeats :=
      ((subscription.items.find? (fun item => item.price = USER_SEAT_PRICE_ID currentCycle)).bind
        (fun item => item.quantity)).getD 0
    let currentProjects :=
      ((subscription.items.find? (fun item => item.price = PROJECT_PRICE_ID currentCycle)).bind
        (fun item => item.quantity)).getD 0
    let currentActiveFlows :=
      ((subscription.items.find? (fun item => item.price = ACTIVE_FLOW_PRICE_ID currentCycle)).bind
        (fun item => item.quantity)).getD 0
    buildPhaseItems currentCycle currentPlan currentUserSeats currentProjects currentActiveFlows

/-- The phases and end behavior submitted by one `subscriptionSchedules.update`. -/
structure SchedulePayload where
  phases : List Phase
  end_behavior : EndBehavior
deriving DecidableEq

/-- Embedding of `updateSubscriptionSchedule`: the payload it submits to the
provider, built from the cycle window and the live subscription items. -/
def updateSubscriptionSchedulePayload (clock : Clock) (subscription : Subscription)
    (newPlan : PlanName) (currentCycle newCycle : BillingCycle)
    (extraUserSeats extraProjects extraActiveFlows : Nat)
    (isFreeDowngrade : Bool) : SchedulePayload :=
  let window := getSubscriptionCycleDates clock subscription
  let phase1 : Phase :=
    { items := currentPhaseItemsOf subscription currentCycle newCycle,
      start_date := window.startDate,
      end_date := some window.endDate }
  if isFreeDowngrade then
    { phases := [phase1], end_behavior := EndBehavior.cancel }
  else
    { phases := [phase1,
        { items := buildPhaseItems newCycle newPlan extraUserSeats extraProjects extraActiveFlows,
          start_date := window.endDate,
          end_date := none }],
      end_behavior := EndBehavior.release }

/-- One entry of a `subscriptions.update` item batch
(`Stripe.SubscriptionUpdateParams.Item`). -/
structure UpdateItem where
  id : Option Nat := none
  price : Option PriceId := none
  quantity : Option Nat := none
  deleted : Bool := false
deriving DecidableEq

/-- Embedding of `findItem` inside `updateSubscription`: the first current item
whose price is among the given ids. -/
def findItem (subscription : Subscription) (priceIds : List PriceId) : Option SubscriptionItem :=
  subscription.items.find? (fun item => priceIds.contains item.price)

/-- Embedding of `handleOptionalItem` inside `updateSubscription`: positive
target quantity upserts the addon item (reusing the id only under an unchanged
cycle); target quantity 0 deletes the existing item under an unchanged cycle. -/
def handleOptionalItem (sameCycle : Bool) (quantity : Nat) (priceId : PriceId)
    (currentItem : Option SubscriptionItem) : List UpdateItem :=
  if quantity > 0 then
    [{ id := if sameCycle then currentItem.map (fun item => item.id) else none,
       price := some priceId, quantity := some quantity }]
  else
    match sameCycle, currentItem with
    | true, some item => [{ id := some item.id, deleted := true }]
    | _, _ => []

/-- Embedding of the item batch built by `updateSubscription`: on a cycle change
every recognised current item is marked deleted, then the base plan, AI credits
and positive addons are (re)added under the new cycle's prices. -/
def updateSubscriptionItems (subscription : Subscription) (plan : PlanName)
    (currentCycle newCycle : BillingCycle)
    (extraUserSeats extraActiveFlows extraProjects : Nat) : List UpdateItem :=
  let currentPlanItem := findItem subscription
    [PLUS_PLAN_PRICE_ID currentCycle, BUSINESS_PLAN_PRICE_ID currentCycle]
  let currentAICreditsItem := findItem subscription [AI_CREDIT_PRICE_ID currentCycle]
  let currentUserSeatsItem := findItem subscription [USER_SEAT_PRICE_ID currentCycle]
  let currentActiveFlowsItem := findItem subscription [ACTIVE_FLOW_PRICE_ID currentCycle]
  let currentProjectsItem := findItem subscription [PROJECT_PRICE_ID currentCycle]
  let sameCycle := newCycle = currentCycle
  let deletions : List UpdateItem :=
    if sameCycle then []
    else
      ([currentPlanItem, currentAICreditsItem, currentUserSeatsItem,
        currentActiveFlowsItem, currentProjectsItem].filterMap id).map
        (fun item => { id := some item.id, deleted := true })
  deletions
  ++ [ { id := if sameCycle then currentPlanItem.map (fun item => item.id) else none,
         price := some (if plan = PlanName.plus then PLUS_PLAN_PRICE_ID newCycle
                        else BUSINESS_PLAN_PRICE_ID newCycle),
         quantity := some 1 },
       { id := if sameCycle then currentAICreditsItem.map (fun item => item.id) else none,
         price := some (AI_CREDIT_PRICE_ID newCycle) } ]
  ++ handleOptionalItem sameCycle extraUserSeats (USER_SEAT_PRICE_ID newCycle) currentUserSeatsItem
  ++ handleOptionalItem sameCycle extraActiveFlows (ACTIVE_FLOW_PRICE_ID newCycle) currentActiveFlowsItem
  ++ handleOptionalItem sameCycle extraProjects (PROJECT_PRICE_ID newCycle) currentProjectsItem

/-- Status of a provider subscription schedule. -/
inductive ScheduleStatus
  | active
  | notStarted
  | released
  | canceled
  | completed
deriving DecidableEq

/-- The observed state of a provider subscription schedule. -/
structure SubscriptionSchedule where
  id : Nat
  subscription : Option Nat
  status : ScheduleStatus
  phases : List Phase
  end_behavior : EndBehavior
deriving DecidableEq

/-- One provider write emitted by `handleSubscriptionUpdate`. -/
inductive StripeCall
  | subscriptionUpdate (subscriptionId : Nat) (items : List UpdateItem)
  | scheduleRelease (scheduleId : Nat)
  | scheduleCreate (scheduleId : Nat) (fromSubscription : Nat)
  | scheduleUpdate (scheduleId : Nat) (phases : List Phase) (endBehavior : EndBehavior)
deriving DecidableEq

/-- The relevance predicate of `handleSubscriptionUpdate`: a schedule bound to
this subscription, or active, or not yet started. -/
def isRelevant (subscriptionId : Nat) (schedule : SubscriptionSchedule) : Bool :=
  schedule.subscription == some subscriptionId
  || schedule.status == ScheduleStatus.active
  || schedule.status == ScheduleStatus.notStarted

/-- Embedding of the relevance filter of `handleSubscriptionUpdate`. -/
def relevantSchedules (subscription : Subscription)
    (schedules : List SubscriptionSchedule) : List SubscriptionSchedule :=
  schedules.filter (isRelevant subscription.id)

/-- The provider writes of one `handleSubscriptionUpdate` call, given the
subscription returned by `subscriptions.retrieve`, the customer's schedules as
the provider stores them (newest first; `subscriptionSchedules.list` returns at
most 10 of them), and the id the provider would assign to a created schedule. -/
def handleSubscriptionUpdateCalls (clock : Clock)
    (isUpgrade isFreeDowngrade : Bool) (newPlan : PlanName)
    (currentCycle newCycle : BillingCycle)
    (extraUserSeats extraProjects extraActiveFlows : Nat)
    (subscription : Subscription) (schedules : List SubscriptionSchedule)
    (freshScheduleId : Nat) : List StripeCall :=
  let rel := relevantSchedules subscription (schedules.take 10)
  if isUpgrade then
    rel.map (fun schedule => StripeCall.scheduleRelease schedule.id)
    ++ [StripeCall.subscriptionUpdate subscription.id
          (updateSubscriptionItems subscription newPlan currentCycle newCycle
            extraUserSeats extraActiveFlows extraProjects)]
  else
    let payload := updateSubscriptionSchedulePayload clock subscription newPlan
      currentCycle newCycle extraUserSeats extraProjects extraActiveFlows isFreeDowngrade
    match rel with
    | schedule :: rest =>
        StripeCall.scheduleUpdate schedule.id payload.phases payload.end_behavior
        :: rest.map (fun s => StripeCall.scheduleRelease s.id)
    | [] =>
        [ StripeCall.scheduleCreate freshScheduleId subscription.id,
          StripeCall.scheduleUpdate freshScheduleId payload.phases payload.end_behavior ]

/-- Effect of one provider write on the stored schedules: release detaches a
schedule (status `released`, subscription link cleared), create prepends a new
schedule managing the subscription, update rewrites phases and end behavior. -/
def applyCall (schedules : List SubscriptionSchedule) : StripeCall → List SubscriptionSchedule
  | .scheduleRelease i =>
      schedules.map (fun s =>
        if s.id = i then { s with status := ScheduleStatus.released, subscription := none } else s)
  | .scheduleCreate fresh subId =>
      { id := fresh, subscription := some subId, status := ScheduleStatus.active,
        phases := [], end_behavior := EndBehavior.release } :: schedules
  | .scheduleUpdate i phases eb =>
      schedules.map (fun s =>
        if s.id = i then { s with phases := phases, end_behavior := eb } else s)
  | .subscriptionUpdate _ _ => schedules

/-- Effect of a sequence of provider writes on the stored schedules. -/
def applyCalls (schedules : List SubscriptionSchedule) (calls : List StripeCall) :
    List SubscriptionSchedule :=
  calls.foldl applyCall schedules

/-- The `subscriptions.update` calls of a trace, as (subscription id, items). -/
def subscriptionUpdates (calls : List StripeCall) : List (Nat × List UpdateItem) :=
  calls.filterMap (fun c => match c with
    | .subscriptionUpdate i items => some (i, items)
    | _ => none)

/-- The `subscriptionSchedules.update` calls of a trace. -/
def scheduleUpdates (calls : List StripeCall) : List (Nat × List Phase × EndBehavior) :=
  calls.filterMap (fun c => match c with
    | .scheduleUpdate i phases eb => some (i, phases, eb)
    | _ => none)

/-- The `subscriptionSchedules.create` calls of a trace. -/
def scheduleCreates (calls : List StripeCall) : List Nat :=
  calls.filterMap (fun c => match c with
    | .scheduleCreate i _ => some i
    | _ => none)

/-- The `subscriptionSchedules.release` calls of a trace. -/
def scheduleReleases (calls : List StripeCall) : List Nat :=
  calls.filterMap (fun c => match c with
    | .scheduleRelease i => some i
    | _ => none)

/-- The provider environment one `handleSubscriptionUpdate` call runs against:
whether Stripe is configured, what the two reads return (`none` models a thrown
provider/transport error), and which writes the provider accepts. -/
structure StripeEnv where
  configured : Bool
  retrieved : Option Subscription
  listed : Option (List SubscriptionSchedule)
  writeOk : StripeCall → Bool

/-- The plan-change request handled by `handleSubscriptionUpdate`. -/
structure HandleSubscriptionUpdateParams where
  subscriptionId : Nat
  extraActiveFlows : Nat
  isUpgrade : Bool
  isFreeDowngrade : Bool
  newPlan : PlanName
  newCycle : BillingCycle
  currentCycle : BillingCycle
  extraProjects : Nat
  extraUserSeats : Nat
deriving DecidableEq

/-- The string value of a `PlanName` as interpolated into the redirect path.
Modelled from the spec: the enum's literal values are not in the sources. -/
def planNameValue : PlanName → String
  | .free => "free"
  | .plus => "plus"
  | .business => "business"

/-- The success redirect path returned by `handleSubscriptionUpdate`, exactly
as the source's template literal spells it (spaces included). -/
def successRedirectPath (isUpgrade : Bool) (newPlan : PlanName) : String :=
  "/ setup / billing / success ? action = "
  ++ (if isUpgrade then "upgrade" else "downgrade")
  ++ "& plan=" ++ planNameValue newPlan ++ " "

/-- The error redirect path returned by the catch-all handler. -/
def errorRedirectPath : String := "/setup/billing/error"

/-- Embedding of `handleSubscriptionUpdate` as seen by its caller: every error
raised inside the try block (missing configuration, a failed read, a rejected
write) is caught and turned into the error redirect path; otherwise the
success path for the request's direction and plan is returned. -/
def handleSubscriptionUpdate (env : StripeEnv) (clock : Clock)
    (params : HandleSubscriptionUpdateParams) (freshScheduleId : Nat) : String :=
  match env.configured, env.retrieved, env.listed with
  | true, some subscription, some schedules =>
      if (handleSubscriptionUpdateCalls clock params.isUpgrade params.isFreeDowngrade
            params.newPlan params.currentCycle params.newCycle
            params.extraUserSeats params.extraProjects params.extraActiveFlows
            subscription schedules freshScheduleId).all env.writeOk then
        successRedirectPath params.isUpgrade params.newPlan
      else errorRedirectPath
  | _, _, _ => errorRedirectPath

/-- Subscription statuses relevant to the trial-gift flow
(`ApSubscriptionStatus` of `ee-shared`). -/
inductive ApSubscriptionStatus
  | active
  | trialing
  | canceled
  | pastDue
  | incomplete
deriving DecidableEq

/-- Platform roles (`PlatformRole` of `shared`). -/
inductive PlatformRole
  | admin
  | member
deriving DecidableEq

/-- The user record looked up by identity in `giftTrialForCustomer`. -/
structure GiftUser where
  platformId : Option Nat
  platformRole : PlatformRole
deriving DecidableEq

/-- The platform-plan row read by `giftTrialForCustomer`. -/
structure PlatformPlanRow where
  platformId : Nat
  stripeCustomerId : Option Nat
  stripeSubscriptionId : Option Nat
  stripeSubscriptionStatus : Option ApSubscriptionStatus
deriving DecidableEq

/-- The descriptive messages `giftTrialForCustomer` returns as data
(one constructor per distinct message string of the source). -/
inductive GiftMessage
  | stripeNotConfigured
  | noUserWithEmail
  | noPlatformOwned
  | alreadyActiveSubscription
  | unknownError
deriving DecidableEq

/-- One side effect performed by `giftTrialForCustomer`. -/
inductive GiftEffect
  | setEligibleForTrial (platformId : Nat) (plan : PlanName)
  | redisSetGift (platformId : Nat) (customerId : Nat) (trialEndUnix : Nat) (plan : PlanName)
  | redisExpireGift (platformId : Nat) (customerId : Nat) (seconds : Nat)
  | stripeTrialExtend (subscriptionId : Nat) (trialEndUnix : Nat)
deriving DecidableEq

/-- The environment one `giftTrialForCustomer` call runs against: whether
Stripe is configured, the three lookups (`Except.error` models a thrown
internal error), and which of the four writes succeed. -/
structure GiftEnv where
  stripeConfigured : Bool
  identityFound : Except Unit Bool
  userResult : Except Unit (Option GiftUser)
  planResult : Except Unit PlatformPlanRow
  setEligibleOk : Bool
  redisSetOk : Bool
  redisExpireOk : Bool
  stripeUpdateOk : Bool

/-- Embedding of `giftTrialForCustomer`: the effects performed and the message
returned (`none` is the undefined return of the two success branches).  Every
throw inside the try block, including the `assertNotNullOrUndefined` on the
customer id and any failed write, is caught and returned as the unknown-error
message, so the function itself never fails. -/
def giftTrialForCustomer (env : GiftEnv) (clock : Clock)
    (trialPeriodMonths : Nat) (plan : PlanName) : List GiftEffect × Option GiftMessage :=
  let trialPeriodInUnixTime := clock.addMonths trialPeriodMonths
  if env.stripeConfigured = false then
    ([], some GiftMessage.stripeNotConfigured)
  else
    match env.identityFound with
    | .error _ => ([], some GiftMessage.unknownError)
    | .ok false => ([], some GiftMessage.noUserWithEmail)
    | .ok true =>
      match env.userResult with
      | .error _ => ([], some GiftMessage.unknownError)
      | .ok none => ([], some GiftMessage.noPlatformOwned)
      | .ok (some user) =>
        match user.platformId with
        | none => ([], some GiftMessage.noPlatformOwned)
        | some _ =>
          if user.platformRole ≠ PlatformRole.admin then
            ([], some GiftMessage.noPlatformOwned)
          else
            match env.planResult with
            | .error _ => ([], some GiftMessage.unknownError)
            | .ok platformPlan =>
              match platformPlan.stripeCustomerId with
              | none => ([], some GiftMessage.unknownError)
              | some customerId =>
                if platformPlan.stripeSubscriptionId = none
                    ∨ platformPlan.stripeSubscriptionStatus = some ApSubscriptionStatus.canceled then
                  if env.setEligibleOk = false then
                    ([], some GiftMessage.unknownError)
                  else if env.redisSetOk = false then
                    ([GiftEffect.setEligibleForTrial platformPlan.platformId plan],
                     some GiftMessage.unknownError)
                  else if env.redisExpireOk = false then
                    ([GiftEffect.setEligibleForTrial platformPlan.platformId plan,
                      GiftEffect.redisSetGift platformPlan.platformId customerId
                        trialPeriodInUnixTime plan],
                     some GiftMessage.unknownError)
                  else
                    ([GiftEffect.setEligibleForTrial platformPlan.platformId plan,
                      GiftEffect.redisSetGift platformPlan.platformId customerId
                        trialPeriodInUnixTime plan,
                      GiftEffect.redisExpireGift platformPlan.platformId customerId
                        (60 * 60 * 15)],
                     none)
                else if platformPlan.stripeSubscriptionStatus = some ApSubscriptionStatus.trialing then
                  match platformPlan.stripeSubscriptionId with
                  | some subscriptionId =>
                      if env.stripeUpdateOk then
                        ([GiftEffect.stripeTrialExtend subscriptionId trialPeriodInUnixTime], none)
                      else ([], some GiftMessage.unknownError)
                  | none => ([], some GiftMessage.unknownError)
                else
                  ([], some GiftMessage.alreadyActiveSubscription)

/-- A schedule after `subscriptionSchedules.release`: detached and released. -/
def releasedOf (s : SubscriptionSchedule) : SubscriptionSchedule :=
  { s with status := ScheduleStatus.released, subscription := none }

/-- A schedule after a `subscriptionSchedules.update` with the given payload. -/
def withPayload (phases : List Phase) (eb : EndBehavior)
    (s : SubscriptionSchedule) : SubscriptionSchedule :=
  { s with phases := phases, end_behavior := eb }

/-- The id of the schedule a deferred `handleSubscriptionUpdate` call rebuilds:
the first listed relevant schedule, or the freshly created one. -/
def deferredTarget (subscription : Subscription) (schedules : List SubscriptionSchedule)
    (freshScheduleId : Nat) : Nat :=
  match relevantSchedules subscription (schedules.take 10) with
  | s :: _ => s.id
  | [] => freshScheduleId

theorem isRelevant_releasedOf (i : Nat) (s : SubscriptionSchedule) :
    isRelevant i (releasedOf s) = false := rfl

theorem isRelevant_withPayload (i : Nat) (P : List Phase) (e : EndBehavior)
    (s : SubscriptionSchedule) : isRelevant i (withPayload P e s) = isRelevant i s := rfl

theorem releasedOf_id (s : SubscriptionSchedule) : (releasedOf s).id = s.id := rfl

theorem withPayload_id (P : List Phase) (e : EndBehavior) (s : SubscriptionSchedule) :
    (withPayload P e s).id = s.id := rfl

theorem applyCalls_cons (schedules : List SubscriptionSchedule) (c : StripeCall)
    (cs : List StripeCall) :
    applyCalls schedules (c :: cs) = applyCalls (applyCall schedules c) cs := rfl

/-- Effect of a batch of releases: each targeted schedule is detached. -/
theorem applyCalls_releases (schedules : List SubscriptionSchedule) (ids : List Nat) :
    applyCalls schedules (ids.map StripeCall.scheduleRelease)
      = schedules.map (fun s => if s.id ∈ ids then releasedOf s else s) := by
  induction ids generalizing schedules with
  | nil =>
      simp [applyCalls]
  | cons i t ih =>
      have step : applyCalls schedules ((i :: t).map StripeCall.scheduleRelease)
          = applyCalls (schedules.map (fun s => if s.id = i then releasedOf s else s))
              (t.map StripeCall.scheduleRelease) := rfl
      rw [step, ih, List.map_map]
      refine List.map_congr_left ?_
      intro s _
      by_cases hsi : s.id = i
      · by_cases hst : s.id ∈ t <;>
          simp [Function.comp, hsi, hst, releasedOf]
      · by_cases hst : s.id ∈ t <;>
          simp [Function.comp, hsi, hst]

/-- Effect of one schedule update: the targeted schedule gets the new payload. -/
theorem applyCall_scheduleUpdate (schedules : List SubscriptionSchedule)
    (i : Nat) (P : List Phase) (e : EndBehavior) :
    applyCall schedules (StripeCall.scheduleUpdate i P e)
      = schedules.map (fun s => if s.id = i then withPayload P e s else s) := rfl

theorem applyCall_scheduleCreate (schedules : List SubscriptionSchedule)
    (fresh subId : Nat) :
    applyCall schedules (StripeCall.scheduleCreate fresh subId)
      = { id := fresh, subscription := some subId, status := ScheduleStatus.active,
          phases := [], end_behavior := EndBehavior.release } :: schedules := rfl

/-- Any schedule created by a deferred call is relevant for its subscription. -/
theorem isRelevant_created (subId : Nat) (fresh : Nat) (P : List Phase) (e : EndBehavior) :
    isRelevant subId
      { id := fresh, subscription := some subId, status := ScheduleStatus.active,
        phases := P, end_behavior := e } = true := by
  simp [isRelevant]

/-- Shape of the deferred trace when at least one relevant schedule is listed:
the first one is updated with the rebuilt payload, the others are released,
and afterwards the updated schedule is the only relevant one. -/
theorem deferred_update_path (clock : Clock) (fd : Bool) (newPlan : PlanName)
    (cc nc : BillingCycle) (us ep ef : Nat) (sub : Subscription)
    (scheds : List SubscriptionSchedule) (fresh : Nat)
    (s0 : SubscriptionSchedule) (rest : List SubscriptionSchedule)
    (hlen : scheds.length ≤ 10)
    (hnd : (scheds.map (fun s => s.id)).Nodup)
    (hrel : relevantSchedules sub (scheds.take 10) = s0 :: rest) :
    handleSubscriptionUpdateCalls clock false fd newPlan cc nc us ep ef sub scheds fresh
      = StripeCall.scheduleUpdate s0.id
          (updateSubscriptionSchedulePayload clock sub newPlan cc nc us ep ef fd).phases
          (updateSubscriptionSchedulePayload clock sub newPlan cc nc us ep ef fd).end_behavior
        :: rest.map (fun s => StripeCall.scheduleRelease s.id)
    ∧ relevantSchedules sub
        (applyCalls scheds
          (handleSubscriptionUpdateCalls clock false fd newPlan cc nc us ep ef sub scheds fresh))
      = [withPayload
          (updateSubscriptionSchedulePayload clock sub newPlan cc nc us ep ef fd).phases
          (updateSubscriptionSchedulePayload clock sub newPlan cc nc us ep ef fd).end_behavior s0] := by
  set payload := updateSubscriptionSchedulePayload clock sub newPlan cc nc us ep ef fd with hpayload
  have htake : scheds.take 10 = scheds := List.take_of_length_le hlen
  have hfilter : scheds.filter (isRelevant sub.id) = s0 :: rest := by
    have := hrel
    rwa [relevantSchedules, htake] at this
  have htrace : handleSubscriptionUpdateCalls clock false fd newPlan cc nc us ep ef sub scheds fresh
      = StripeCall.scheduleUpdate s0.id payload.phases payload.end_behavior
        :: rest.map (fun s => StripeCall.scheduleRelease s.id) := by
    simp only [handleSubscriptionUpdateCalls, hrel, Bool.false_eq_true, if_false, hpayload]
  refine ⟨htrace, ?_⟩
  have hs0f : s0 ∈ scheds.filter (isRelevant sub.id) := by
    rw [hfilter]; exact List.mem_cons_self _ _
  have hs0 : s0 ∈ scheds ∧ isRelevant sub.id s0 = true := List.mem_filter.mp hs0f
  have hsubl : (s0 :: rest).Sublist scheds := by
    rw [← hfilter]; exact List.filter_sublist scheds
  have hndfil : ((s0 :: rest).map (fun s => s.id)).Nodup :=
    List.Nodup.sublist (hsubl.map _) hnd
  have hnd2 : (∀ x ∈ rest, ¬x.id = s0.id) ∧ (rest.map (fun s => s.id)).Nodup := by
    simpa using hndfil
  have hs0nr : s0.id ∉ rest.map (fun s => s.id) := by
    intro hmem
    rcases List.mem_map.mp hmem with ⟨r, hr, hrid⟩
    exact hnd2.1 r hr hrid
  have hex0 : ¬∃ a ∈ rest, a.id = s0.id := by
    rintro ⟨a, ha, haid⟩
    exact hnd2.1 a ha haid
  have inj : ∀ x ∈ scheds, ∀ y ∈ scheds, x.id = y.id → x = y := by
    intro x hx y hy hxy
    exact List.inj_on_of_nodup_map hnd hx hy hxy
  -- rewrite the applied trace as a single map over the stored schedules
  have happly : applyCalls scheds
      (handleSubscriptionUpdateCalls clock false fd newPlan cc nc us ep ef sub scheds fresh)
      = scheds.map (fun s =>
          (fun t => if t.id ∈ rest.map (fun r => r.id) then releasedOf t else t)
          ((fun t => if t.id = s0.id then withPayload payload.phases payload.end_behavior t else t) s)) := by
    rw [htrace, applyCalls_cons, applyCall_scheduleUpdate]
    have hmm : rest.map (fun s => StripeCall.scheduleRelease s.id)
        = (rest.map (fun s => s.id)).map StripeCall.scheduleRelease := by
      rw [List.map_map]; rfl
    rw [hmm, applyCalls_releases, List.map_map]
    rfl
  rw [happly, relevantSchedules, List.filter_map]
  have key : ∀ s ∈ scheds,
      ((isRelevant sub.id) ∘ (fun s =>
        (fun t => if t.id ∈ rest.map (fun r => r.id) then releasedOf t else t)
        ((fun t => if t.id = s0.id then withPayload payload.phases payload.end_behavior t else t) s))) s
      = ((s == s0) && isRelevant sub.id s) := by
    intro s hs
    by_cases hp : isRelevant sub.id s = true
    · have hsf : s ∈ s0 :: rest := by
        rw [← hfilter]; exact List.mem_filter.mpr ⟨hs, hp⟩
      rcases List.mem_cons.mp hsf with h1 | h2
      · subst h1
        simp [withPayload_id, isRelevant_withPayload, hp, hex0]
      · have hidr : s.id ∈ rest.map (fun r => r.id) := List.mem_map_of_mem _ h2
        have hneq : s.id ≠ s0.id := by
          intro h
          exact hs0nr (h ▸ hidr)
        have hnes : (s == s0) = false := by
          apply beq_eq_false_iff_ne.mpr
          intro h
          exact hs0nr (h ▸ hidr)
        simp only [Function.comp_apply, if_neg hneq, if_pos hidr,
          isRelevant_releasedOf, hnes, Bool.false_and]
    · have hneq : s.id ≠ s0.id := by
        intro h
        have := inj s hs s0 hs0.1 h
        rw [this] at hp
        exact hp hs0.2
      have hnr : s.id ∉ rest.map (fun r => r.id) := by
        intro hmem
        rcases List.mem_map.mp hmem with ⟨r, hr, hrid⟩
        have hrf : r ∈ scheds.filter (isRelevant sub.id) := by
          rw [hfilter]; exact List.mem_cons_of_mem _ hr
        have hr2 := List.mem_filter.mp hrf
        have : r = s := inj r hr2.1 s hs hrid
        rw [this] at hr2
        exact hp hr2.2
      have hpb : isRelevant sub.id s = false := by
        cases h : isRelevant sub.id s
        · rfl
        · exact absurd h hp
      simp only [Function.comp_apply, if_neg hneq, if_neg hnr, hpb, Bool.and_false]
  rw [List.filter_congr key]
  have hff : scheds.filter (fun s => (s == s0) && isRelevant sub.id s)
      = (scheds.filter (isRelevant sub.id)).filter (fun s => s == s0) := by
    rw [List.filter_filter]
  rw [hff, hfilter]
  have hrest : rest.filter (fun s => s == s0) = [] := by
    apply List.filter_eq_nil_iff.mpr
    intro r hr hbeq
    have : r = s0 := by exact_mod_cast beq_iff_eq.mp hbeq
    rw [this] at hr
    exact hs0nr (List.mem_map_of_mem _ hr)
  have hfcons : (s0 :: rest).filter (fun s => s == s0) = [s0] := by
    simp [List.filter_cons, hrest]
  rw [hfcons]
  simp [withPayload_id, hex0]

/-- Shape of the deferred trace when no relevant schedule is listed: a schedule
is created from the subscription and then rebuilt with the payload, and
afterwards it is the only relevant schedule. -/
theorem deferred_create_path (clock : Clock) (fd : Bool) (newPlan : PlanName)
    (cc nc : BillingCycle) (us ep ef : Nat) (sub : Subscription)
    (scheds : List SubscriptionSchedule) (fresh : Nat)
    (hlen : scheds.length ≤ 10)
    (hfresh : fresh ∉ scheds.map (fun s => s.id))
    (hrel : relevantSchedules sub (scheds.take 10) = []) :
    handleSubscriptionUpdateCalls clock false fd newPlan cc nc us ep ef sub scheds fresh
      = [StripeCall.scheduleCreate fresh sub.id,
         StripeCall.scheduleUpdate fresh
           (updateSubscriptionSchedulePayload clock sub newPlan cc nc us ep ef fd).phases
           (updateSubscriptionSchedulePayload clock sub newPlan cc nc us ep ef fd).end_behavior]
    ∧ applyCalls scheds
        (handleSubscriptionUpdateCalls clock false fd newPlan cc nc us ep ef sub scheds fresh)
      = { id := fresh, subscription := some sub.id, status := ScheduleStatus.active,
          phases := (updateSubscriptionSchedulePayload clock sub newPlan cc nc us ep ef fd).phases,
          end_behavior := (updateSubscriptionSchedulePayload clock sub newPlan cc nc us ep ef fd).end_behavior }
        :: scheds
    ∧ relevantSchedules sub
        (applyCalls scheds
          (handleSubscriptionUpdateCalls clock false fd newPlan cc nc us ep ef sub scheds fresh))
      = [{ id := fresh, subscription := some sub.id, status := ScheduleStatus.active,
           phases := (updateSubscriptionSchedulePayload clock sub newPlan cc nc us ep ef fd).phases,
           end_behavior := (updateSubscriptionSchedulePayload clock sub newPlan cc nc us ep ef fd).end_behavior }] := by
  set payload := updateSubscriptionSchedulePayload clock sub newPlan cc nc us ep ef fd with hpayload
  have htake : scheds.take 10 = scheds := List.take_of_length_le hlen
  have hfilter : scheds.filter (isRelevant sub.id) = [] := by
    have := hrel
    rwa [relevantSchedules, htake] at this
  have htrace : handleSubscriptionUpdateCalls clock false fd newPlan cc nc us ep ef sub scheds fresh
      = [StripeCall.scheduleCreate fresh sub.id,
         StripeCall.scheduleUpdate fresh payload.phases payload.end_behavior] := by
    simp only [handleSubscriptionUpdateCalls, hrel, Bool.false_eq_true, if_false, hpayload]
  refine ⟨htrace, ?_, ?_⟩
  · rw [htrace]
    show applyCall (applyCall scheds (StripeCall.scheduleCreate fresh sub.id))
        (StripeCall.scheduleUpdate fresh payload.phases payload.end_behavior) = _
    rw [applyCall_scheduleCreate, applyCall_scheduleUpdate, List.map_cons]
    have hmap : scheds.map (fun s =>
        if s.id = fresh then withPayload payload.phases payload.end_behavior s else s) = scheds := by
      have : ∀ s ∈ scheds,
          (if s.id = fresh then withPayload payload.phases payload.end_behavior s else s) = s := by
        intro s hs
        rw [if_neg]
        intro h
        exact hfresh (h ▸ List.mem_map_of_mem _ hs)
      rw [List.map_congr_left this, List.map_id']
    rw [hmap]
    simp [withPayload]
  · rw [htrace]
    show relevantSchedules sub
        (applyCall (applyCall scheds (StripeCall.scheduleCreate fresh sub.id))
          (StripeCall.scheduleUpdate fresh payload.phases payload.end_behavior)) = _
    rw [applyCall_scheduleCreate, applyCall_scheduleUpdate, List.map_cons]
    have hmap : scheds.map (fun s =>
        if s.id = fresh then withPayload payload.phases payload.end_behavior s else s) = scheds := by
      have : ∀ s ∈ scheds,
          (if s.id = fresh then withPayload payload.phases payload.end_behavior s else s) = s := by
        intro s hs
        rw [if_neg]
        intro h
        exact hfresh (h ▸ List.mem_map_of_mem _ hs)
      rw [List.map_congr_left this, List.map_id']
    rw [hmap]
    rw [relevantSchedules, List.filter_cons]
    simp only [hfilter]
    simp [withPayload, isRelevant]

theorem scheduleUpdates_releases (l : List SubscriptionSchedule) :
    scheduleUpdates (l.map (fun s => StripeCall.scheduleRelease s.id)) = [] := by
  induction l with
  | nil => rfl
  | cons a t ih => simp [scheduleUpdates, List.filterMap_cons]

theorem subscriptionUpdates_releases (l : List SubscriptionSchedule) :
    subscriptionUpdates (l.map (fun s => StripeCall.scheduleRelease s.id)) = [] := by
  induction l with
  | nil => rfl
  | cons a t ih => simp [subscriptionUpdates, List.filterMap_cons]

theorem scheduleCreates_releases (l : List SubscriptionSchedule) :
    scheduleCreates (l.map (fun s => StripeCall.scheduleRelease s.id)) = [] := by
  induction l with
  | nil => rfl
  | cons a t ih => simp [scheduleCreates, List.filterMap_cons]

theorem deferredTarget_cons (sub : Subscription) (scheds : List SubscriptionSchedule)
    (fresh : Nat) (s : SubscriptionSchedule) (rest : List SubscriptionSchedule)
    (hrel : relevantSchedules sub (scheds.take 10) = s :: rest) :
    deferredTarget sub scheds fresh = s.id := by
  simp [deferredTarget, hrel]

theorem deferredTarget_nil (sub : Subscription) (scheds : List SubscriptionSchedule)
    (fresh : Nat) (hrel : relevantSchedules sub (scheds.take 10) = []) :
    deferredTarget sub scheds fresh = fresh := by
  simp [deferredTarget, hrel]

/-- Every deferred call submits exactly one schedule update, carrying the
payload rebuilt from the live subscription, aimed at the deferred target; and
it performs no `subscriptions.update`. -/
theorem deferred_trace_shape (clock : Clock) (fd : Bool) (newPlan : PlanName)
    (cc nc : BillingCycle) (us ep ef : Nat) (sub : Subscription)
    (scheds : List SubscriptionSchedule) (fresh : Nat) :
    scheduleUpdates (handleSubscriptionUpdateCalls clock false fd newPlan cc nc us ep ef sub scheds fresh)
      = [(deferredTarget sub scheds fresh,
          (updateSubscriptionSchedulePayload clock sub newPlan cc nc us ep ef fd).phases,
          (updateSubscriptionSchedulePayload clock sub newPlan cc nc us ep ef fd).end_behavior)]
    ∧ subscriptionUpdates
        (handleSubscriptionUpdateCalls clock false fd newPlan cc nc us ep ef sub scheds fresh) = [] := by
  cases hrel : relevantSchedules sub (scheds.take 10) with
  | nil =>
      have htrace : handleSubscriptionUpdateCalls clock false fd newPlan cc nc us ep ef sub scheds fresh
          = [StripeCall.scheduleCreate fresh sub.id,
             StripeCall.scheduleUpdate fresh
               (updateSubscriptionSchedulePayload clock sub newPlan cc nc us ep ef fd).phases
               (updateSubscriptionSchedulePayload clock sub newPlan cc nc us ep ef fd).end_behavior] := by
        simp only [handleSubscriptionUpdateCalls, hrel, Bool.false_eq_true, if_false]
      rw [htrace, deferredTarget_nil sub scheds fresh hrel]
      exact ⟨rfl, rfl⟩
  | cons s rest =>
      have htrace : handleSubscriptionUpdateCalls clock false fd newPlan cc nc us ep ef sub scheds fresh
          = StripeCall.scheduleUpdate s.id
              (updateSubscriptionSchedulePayload clock sub newPlan cc nc us ep ef fd).phases
              (updateSubscriptionSchedulePayload clock sub newPlan cc nc us ep ef fd).end_behavior
            :: rest.map (fun r => StripeCall.scheduleRelease r.id) := by
        simp only [handleSubscriptionUpdateCalls, hrel, Bool.false_eq_true, if_false]
      rw [htrace, deferredTarget_cons sub scheds fresh s rest hrel]
      constructor
      · have h1 := scheduleUpdates_releases rest
        simp only [scheduleUpdates, List.filterMap_cons] at h1 ⊢
        rw [h1]
      · have h2 := subscriptionUpdates_releases rest
        simp only [subscriptionUpdates, List.filterMap_cons] at h2 ⊢
        rw [h2]

/-- C1: a deferred (non-upgrade) call submits exactly one schedule.  With
`isFreeDowngrade = false` it has exactly two phases — phase 1 the snapshot of
the current items from the cycle window's start to its end, phase 2 the item
set built from the new plan, cycle and addon targets, starting at the window's
end with no end date — and `end_behavior = RELEASE`.  With
`isFreeDowngrade = true` it has exactly the snapshot phase ending at the
window's end and `end_behavior = CANCEL`.  With an unchanged cycle the
snapshot copies the current items' price/quantity pairs as-is. -/
theorem c1_deferred_schedule_payload (clock : Clock) (newPlan : PlanName)
    (cc nc : BillingCycle) (us ep ef : Nat) (sub : Subscription)
    (scheds : List SubscriptionSchedule) (fresh : Nat) :
    scheduleUpdates (handleSubscriptionUpdateCalls clock false false newPlan cc nc us ep ef sub scheds fresh)
      = [(deferredTarget sub scheds fresh,
          [ { items := currentPhaseItemsOf sub cc nc,
              start_date := (getSubscriptionCycleDates clock sub).startDate,
              end_date := some (getSubscriptionCycleDates clock sub).endDate },
            { items := buildPhaseItems nc newPlan us ep ef,
              start_date := (getSubscriptionCycleDates clock sub).endDate,
              end_date := none } ],
          EndBehavior.release)]
    ∧ scheduleUpdates (handleSubscriptionUpdateCalls clock false true newPlan cc nc us ep ef sub scheds fresh)
      = [(deferredTarget sub scheds fresh,
          [ { items := currentPhaseItemsOf sub cc nc,
              start_date := (getSubscriptionCycleDates clock sub).startDate,
              end_date := some (getSubscriptionCycleDates clock sub).endDate } ],
          EndBehavior.cancel)]
    ∧ currentPhaseItemsOf sub cc cc
        = sub.items.map (fun item => { price := item.price, quantity := item.quantity }) := by
  refine ⟨?_, ?_, ?_⟩
  · rw [(deferred_trace_shape clock false newPlan cc nc us ep ef sub scheds fresh).1]
    simp [updateSubscriptionSchedulePayload]
  · rw [(deferred_trace_shape clock true newPlan cc nc us ep ef sub scheds fresh).1]
    simp [updateSubscriptionSchedulePayload]
  · simp [currentPhaseItemsOf]

/-- C2: an upgrade call performs exactly one `subscriptions.update`, carrying
the item batch built for the new plan, cycle and addon targets, and emits no
schedule create and no schedule update (pre-existing relevant schedules are
released, which the spec treats as distinct from modification). -/
theorem c2_upgrade_immediate (clock : Clock) (fd : Bool) (newPlan : PlanName)
    (cc nc : BillingCycle) (us ep ef : Nat) (sub : Subscription)
    (scheds : List SubscriptionSchedule) (fresh : Nat) :
    subscriptionUpdates (handleSubscriptionUpdateCalls clock true fd newPlan cc nc us ep ef sub scheds fresh)
      = [(sub.id, updateSubscriptionItems sub newPlan cc nc us ef ep)]
    ∧ scheduleUpdates (handleSubscriptionUpdateCalls clock true fd newPlan cc nc us ep ef sub scheds fresh)
      = []
    ∧ scheduleCreates (handleSubscriptionUpdateCalls clock true fd newPlan cc nc us ep ef sub scheds fresh)
      = [] := by
  have htrace : handleSubscriptionUpdateCalls clock true fd newPlan cc nc us ep ef sub scheds fresh
      = (relevantSchedules sub (scheds.take 10)).map (fun s => StripeCall.scheduleRelease s.id)
        ++ [StripeCall.subscriptionUpdate sub.id (updateSubscriptionItems sub newPlan cc nc us ef ep)] := by
    simp only [handleSubscriptionUpdateCalls, if_true]
  rw [htrace]
  refine ⟨?_, ?_, ?_⟩
  · rw [subscriptionUpdates, List.filterMap_append]
    have h := subscriptionUpdates_releases (relevantSchedules sub (scheds.take 10))
    rw [subscriptionUpdates] at h
    rw [h]
    rfl
  · rw [scheduleUpdates, List.filterMap_append]
    have h := scheduleUpdates_releases (relevantSchedules sub (scheds.take 10))
    rw [scheduleUpdates] at h
    rw [h]
    rfl
  · rw [scheduleCreates, List.filterMap_append]
    have h := scheduleCreates_releases (relevantSchedules sub (scheds.take 10))
    rw [scheduleCreates] at h
    rw [h]
    rfl

theorem isRelevant_updFun (i j : Nat) (P : List Phase) (e : EndBehavior)
    (s : SubscriptionSchedule) :
    isRelevant i (if s.id = j then withPayload P e s else s) = isRelevant i s := by
  by_cases h : s.id = j <;> simp [h, isRelevant_withPayload]

/-- A schedule update changes no schedule's relevance. -/
theorem relevant_after_scheduleUpdate (sub : Subscription)
    (scheds : List SubscriptionSchedule) (j : Nat) (P : List Phase) (e : EndBehavior) :
    relevantSchedules sub (applyCall scheds (StripeCall.scheduleUpdate j P e))
      = (relevantSchedules sub scheds).map
          (fun s => if s.id = j then withPayload P e s else s) := by
  rw [applyCall_scheduleUpdate, relevantSchedules, List.filter_map, relevantSchedules]
  congr 1
  apply List.filter_congr
  intro s _
  show isRelevant sub.id (if s.id = j then withPayload P e s else s) = isRelevant sub.id s
  exact isRelevant_updFun sub.id j P e s

/-- A trace without schedule creations leaves the number of stored schedules
unchanged. -/
theorem applyCalls_length (scheds : List SubscriptionSchedule) (calls : List StripeCall)
    (h : scheduleCreates calls = []) :
    (applyCalls scheds calls).length = scheds.length := by
  induction calls generalizing scheds with
  | nil => rfl
  | cons c cs ih =>
      cases c with
      | subscriptionUpdate i items =>
          rw [applyCalls_cons]
          exact ih scheds (by simpa [scheduleCreates, List.filterMap_cons] using h)
      | scheduleRelease i =>
          rw [applyCalls_cons]
          have := ih (applyCall scheds (StripeCall.scheduleRelease i))
            (by simpa [scheduleCreates, List.filterMap_cons] using h)
          rw [this]
          simp [applyCall]
      | scheduleCreate i j =>
          exact absurd h (by simp [scheduleCreates, List.filterMap_cons])
      | scheduleUpdate i P e =>
          have := ih (applyCall scheds (StripeCall.scheduleUpdate i P e))
            (by simpa [scheduleCreates, List.filterMap_cons] using h)
          rw [applyCalls_cons, this]
          simp [applyCall]

/-- Concrete subscription for the schedule tie-break scenario. -/
def c4ObservedSubscription : Subscription :=
  { id := 1, customer := 7, items := [], cancel_at := none }

/-- A schedule relevant only through its ACTIVE status, not bound to the
subscription. -/
def c4StatusOnlySchedule : SubscriptionSchedule :=
  { id := 10, subscription := none, status := ScheduleStatus.active,
    phases := [], end_behavior := EndBehavior.release }

/-- A schedule explicitly bound to the subscription. -/
def c4BoundSchedule : SubscriptionSchedule :=
  { id := 20, subscription := some 1, status := ScheduleStatus.notStarted,
    phases := [], end_behavior := EndBehavior.release }

/-- A concrete clock for the counterexample evaluations. -/
def exampleClock : Clock :=
  { monthStart := 1000, monthEnd := 2000, addMonths := fun m => 5000 + m }

/-- C4 counterexample: with the status-only schedule listed before the
subscription-bound one, the deferred call updates the status-only schedule
(id 10) and releases the subscription-bound one (id 20) — the binding to the
subscription id does not win over a status-only match. -/
theorem c4_counterexample_bound_schedule_loses :
    (scheduleUpdates (handleSubscriptionUpdateCalls exampleClock false false PlanName.plus
        BillingCycle.monthly BillingCycle.monthly 0 0 0 c4ObservedSubscription
        [c4StatusOnlySchedule, c4BoundSchedule] 99)).map (fun u => u.1) = [10]
    ∧ scheduleReleases (handleSubscriptionUpdateCalls exampleClock false false PlanName.plus
        BillingCycle.monthly BillingCycle.monthly 0 0 0 c4ObservedSubscription
        [c4StatusOnlySchedule, c4BoundSchedule] 99) = [20]
    ∧ c4BoundSchedule.subscription = some c4ObservedSubscription.id
    ∧ c4StatusOnlySchedule.subscription ≠ some c4ObservedSubscription.id := by
  refine ⟨?_, ?_, rfl, by decide⟩
  · rfl
  · rfl

/-- C4 (amended): with several schedules matching the relevance filter, the
deferred call updates the first one in the provider's list order — regardless
of whether it is the one bound to the subscription — releases every other
matching schedule, and leaves exactly one schedule in a relevant state. -/
theorem c4_first_listed_relevant_wins (clock : Clock) (fd : Bool) (newPlan : PlanName)
    (cc nc : BillingCycle) (us ep ef : Nat) (sub : Subscription)
    (scheds : List SubscriptionSchedule) (fresh : Nat)
    (s0 : SubscriptionSchedule) (rest : List SubscriptionSchedule)
    (hlen : scheds.length ≤ 10)
    (hnd : (scheds.map (fun s => s.id)).Nodup)
    (hrel : relevantSchedules sub (scheds.take 10) = s0 :: rest)
    (_hmany : rest ≠ []) :
    (scheduleUpdates (handleSubscriptionUpdateCalls clock false fd newPlan cc nc us ep ef sub scheds fresh)).map
        (fun u => u.1) = [s0.id]
    ∧ (∀ s ∈ rest, StripeCall.scheduleRelease s.id
        ∈ handleSubscriptionUpdateCalls clock false fd newPlan cc nc us ep ef sub scheds fresh)
    ∧ (relevantSchedules sub
        (applyCalls scheds
          (handleSubscriptionUpdateCalls clock false fd newPlan cc nc us ep ef sub scheds fresh))).length
      = 1 := by
  obtain ⟨htrace, hafter⟩ :=
    deferred_update_path clock fd newPlan cc nc us ep ef sub scheds fresh s0 rest hlen hnd hrel
  refine ⟨?_, ?_, ?_⟩
  · rw [(deferred_trace_shape clock fd newPlan cc nc us ep ef sub scheds fresh).1,
      deferredTarget_cons sub scheds fresh s0 rest hrel]
    rfl
  · intro s hs
    rw [htrace]
    exact List.mem_cons_of_mem _ (List.mem_map_of_mem _ hs)
  · rw [hafter]
    rfl

/-- C5: running the same deferred request twice in a row, the first call's
trace contains no `subscriptions.update` (so the second call re-reads the same
subscription), the second call creates no schedule, it submits exactly the
same single schedule update as the first call (same target schedule, same
payload rebuilt from the live state), and both after the first call and after
the second exactly one schedule is in a relevant state. -/
theorem c5_deferred_idempotent (clock : Clock) (fd : Bool) (newPlan : PlanName)
    (cc nc : BillingCycle) (us ep ef : Nat) (sub : Subscription)
    (scheds : List SubscriptionSchedule) (fresh1 fresh2 : Nat)
    (hlen : scheds.length ≤ 10)
    (hnd : (scheds.map (fun s => s.id)).Nodup)
    (hfresh : fresh1 ∉ scheds.map (fun s => s.id)) :
    subscriptionUpdates
        (handleSubscriptionUpdateCalls clock false fd newPlan cc nc us ep ef sub scheds fresh1) = []
    ∧ scheduleCreates
        (handleSubscriptionUpdateCalls clock false fd newPlan cc nc us ep ef sub
          (applyCalls scheds
            (handleSubscriptionUpdateCalls clock false fd newPlan cc nc us ep ef sub scheds fresh1))
          fresh2) = []
    ∧ scheduleUpdates
        (handleSubscriptionUpdateCalls clock false fd newPlan cc nc us ep ef sub
          (applyCalls scheds
            (handleSubscriptionUpdateCalls clock false fd newPlan cc nc us ep ef sub scheds fresh1))
          fresh2)
      = scheduleUpdates
          (handleSubscriptionUpdateCalls clock false fd newPlan cc nc us ep ef sub scheds fresh1)
    ∧ (relevantSchedules sub
        (applyCalls scheds
          (handleSubscriptionUpdateCalls clock false fd newPlan cc nc us ep ef sub scheds fresh1))).length
      = 1
    ∧ (relevantSchedules sub
        (applyCalls
          (applyCalls scheds
            (handleSubscriptionUpdateCalls clock false fd newPlan cc nc us ep ef sub scheds fresh1))
          (handleSubscriptionUpdateCalls clock false fd newPlan cc nc us ep ef sub
            (applyCalls scheds
              (handleSubscriptionUpdateCalls clock false fd newPlan cc nc us ep ef sub scheds fresh1))
            fresh2))).length
      = 1 := by
  set payload := updateSubscriptionSchedulePayload clock sub newPlan cc nc us ep ef fd with hpayload
  set trace1 := handleSubscriptionUpdateCalls clock false fd newPlan cc nc us ep ef sub scheds fresh1
    with htrace1def
  set scheds1 := applyCalls scheds trace1 with hscheds1
  -- in both branches we exhibit the single relevant schedule after call one
  have main : ∃ t : SubscriptionSchedule,
      relevantSchedules sub (scheds1.take 10) = [t]
      ∧ relevantSchedules sub scheds1 = [t]
      ∧ t.id = deferredTarget sub scheds fresh1 := by
    cases hrel : relevantSchedules sub (scheds.take 10) with
    | nil =>
        obtain ⟨ht, happ, haft⟩ :=
          deferred_create_path clock fd newPlan cc nc us ep ef sub scheds fresh1 hlen hfresh hrel
        refine ⟨{ id := fresh1, subscription := some sub.id, status := ScheduleStatus.active,
                  phases := payload.phases, end_behavior := payload.end_behavior }, ?_, ?_, ?_⟩
        · have htake : scheds.take 10 = scheds := List.take_of_length_le hlen
          have hfilter : scheds.filter (isRelevant sub.id) = [] := by
            have := hrel
            rwa [relevantSchedules, htake] at this
          rw [hscheds1, htrace1def, happ]
          rw [show ∀ (x : SubscriptionSchedule) (l : List SubscriptionSchedule),
            (x :: l).take 10 = x :: l.take 9 from fun x l => rfl]
          rw [relevantSchedules, List.filter_cons]
          have h9 : (scheds.take 9).filter (isRelevant sub.id) = [] := by
            have hsub : ((scheds.take 9).filter (isRelevant sub.id)).Sublist
                (scheds.filter (isRelevant sub.id)) :=
              List.Sublist.filter _ (List.take_sublist 9 scheds)
            rw [hfilter] at hsub
            exact List.sublist_nil.mp hsub
          simp only [isRelevant_created, if_pos trivial, h9]
        · rw [hscheds1, htrace1def, happ]
          have htake : scheds.take 10 = scheds := List.take_of_length_le hlen
          have hfilter : scheds.filter (isRelevant sub.id) = [] := by
            have := hrel
            rwa [relevantSchedules, htake] at this
          rw [relevantSchedules, List.filter_cons]
          simp only [isRelevant_created, if_pos trivial, hfilter]
        · rw [deferredTarget_nil sub scheds fresh1 hrel]
    | cons s0 rest =>
        obtain ⟨ht, haft⟩ :=
          deferred_update_path clock fd newPlan cc nc us ep ef sub scheds fresh1 s0 rest hlen hnd hrel
        have hnocreate : scheduleCreates trace1 = [] := by
          rw [htrace1def, ht]
          have h := scheduleCreates_releases rest
          simp only [scheduleCreates, List.filterMap_cons] at h ⊢
          exact h
        have hlen1 : scheds1.length = scheds.length := by
          rw [hscheds1]
          exact applyCalls_length scheds trace1 hnocreate
        have htake1 : scheds1.take 10 = scheds1 :=
          List.take_of_length_le (by rw [hlen1]; exact hlen)
        refine ⟨withPayload payload.phases payload.end_behavior s0, ?_, ?_, ?_⟩
        · rw [htake1, hscheds1, htrace1def]
          exact haft
        · rw [hscheds1, htrace1def]
          exact haft
        · rw [withPayload_id, deferredTarget_cons sub scheds fresh1 s0 rest hrel]
  obtain ⟨t, hrel2, hrelfull, htid⟩ := main
  have htrace2 : handleSubscriptionUpdateCalls clock false fd newPlan cc nc us ep ef sub scheds1 fresh2
      = [StripeCall.scheduleUpdate t.id payload.phases payload.end_behavior] := by
    simp only [handleSubscriptionUpdateCalls, hrel2, Bool.false_eq_true, if_false, hpayload,
      List.map_nil]
  refine ⟨?_, ?_, ?_, ?_, ?_⟩
  · exact (deferred_trace_shape clock fd newPlan cc nc us ep ef sub scheds fresh1).2
  · rw [htrace2]
    rfl
  · rw [htrace2, (deferred_trace_shape clock fd newPlan cc nc us ep ef sub scheds fresh1).1, htid]
    rfl
  · rw [hrelfull]
    rfl
  · show (relevantSchedules sub (applyCalls scheds1
      (handleSubscriptionUpdateCalls clock false fd newPlan cc nc us ep ef sub scheds1 fresh2))).length = 1
    rw [htrace2]
    show (relevantSchedules sub (applyCall scheds1
      (StripeCall.scheduleUpdate t.id payload.phases payload.end_behavior))).length = 1
    rw [relevant_after_scheduleUpdate, hrelfull]
    rfl

/-- The first match of a predicate is the unique element satisfying it. -/
theorem find_eq_of_mem_unique {α : Type _} (p : α → Bool) (a : α) :
    ∀ xs : List α, a ∈ xs → p a = true → (∀ b ∈ xs, p b = true → b = a) →
      xs.find? p = some a := by
  intro xs
  induction xs with
  | nil => intro ha; cases ha
  | cons x t ih =>
      intro ha hpa h
      rw [List.find?_cons]
      cases hx : p x with
      | true =>
          have : x = a := h x (List.mem_cons_self _ _) hx
          rw [this]
      | false =>
          have hat : a ∈ t := by
            rcases List.mem_cons.mp ha with h1 | h2
            · rw [← h1, hpa] at hx; cases hx
            · exact h2
          exact ih hat hpa (fun b hb hpb => h b (List.mem_cons_of_mem _ hb) hpb)

/-- Provider invariant: a subscription never carries two items with the same
price (and the data model allows at most one item per kind). -/
def pricesNodup (subscription : Subscription) : Prop :=
  (subscription.items.map (fun item => item.price)).Nodup

/-- Data-model invariant: at most one base-plan item under the given cycle. -/
def atMostOneBase (cycle : BillingCycle) (subscription : Subscription) : Prop :=
  ∀ x ∈ subscription.items, ∀ y ∈ subscription.items,
    (x.price = PLUS_PLAN_PRICE_ID cycle ∨ x.price = BUSINESS_PLAN_PRICE_ID cycle) →
    (y.price = PLUS_PLAN_PRICE_ID cycle ∨ y.price = BUSINESS_PLAN_PRICE_ID cycle) → x = y

theorem item_price_inj (subscription : Subscription) (h : pricesNodup subscription) :
    ∀ x ∈ subscription.items, ∀ y ∈ subscription.items, x.price = y.price → x = y :=
  fun x hx y hy hxy => List.inj_on_of_nodup_map h hx hy hxy

/-- With distinct prices, `findItem` on a single price id returns the item
that carries it. -/
theorem findItem_single_eq (subscription : Subscription) (hnd : pricesNodup subscription)
    (c : PriceId) (it : SubscriptionItem) (hmem : it ∈ subscription.items)
    (hp : it.price = c) : findItem subscription [c] = some it := by
  apply find_eq_of_mem_unique _ _ _ hmem
  · simp [hp]
  · intro b hb hpb
    simp at hpb
    exact item_price_inj subscription hnd b hb it hmem (hpb.trans hp.symm)

/-- With at most one base item under the cycle, `findItem` on the base pair
returns it. -/
theorem findItem_base_eq (subscription : Subscription) (cycle : BillingCycle)
    (hbase : atMostOneBase cycle subscription) (it : SubscriptionItem)
    (hmem : it ∈ subscription.items)
    (hp : it.price = PLUS_PLAN_PRICE_ID cycle ∨ it.price = BUSINESS_PLAN_PRICE_ID cycle) :
    findItem subscription [PLUS_PLAN_PRICE_ID cycle, BUSINESS_PLAN_PRICE_ID cycle] = some it := by
  apply find_eq_of_mem_unique _ _ _ hmem
  · rcases hp with h | h <;> simp [h]
  · intro b hb hpb
    simp at hpb
    exact hbase b hb it hmem hpb hp

/-- The three quantity-bearing addon kinds. -/
inductive AddonKind
  | userSeat
  | projectAddon
  | activeFlow
deriving DecidableEq

/-- The catalog price of an addon kind under a cycle. -/
def addonPriceId : AddonKind → BillingCycle → PriceId
  | .userSeat, c => USER_SEAT_PRICE_ID c
  | .projectAddon, c => PROJECT_PRICE_ID c
  | .activeFlow, c => ACTIVE_FLOW_PRICE_ID c

/-- The requested target quantity of an addon kind. -/
def addonTarget : AddonKind → Nat → Nat → Nat → Nat
  | .userSeat, extraUserSeats, _, _ => extraUserSeats
  | .activeFlow, _, extraActiveFlows, _ => extraActiveFlows
  | .projectAddon, _, _, extraProjects => extraProjects

/-- Shape of the item batch when the billing cycle changes: the found current
items deleted, then the full set re-added with no item ids. -/
theorem updateItems_cycle_change_shape (subscription : Subscription) (plan : PlanName)
    (cc nc : BillingCycle) (us ef ep : Nat) (hcy : ¬(nc = cc)) :
    updateSubscriptionItems subscription plan cc nc us ef ep
      = (([findItem subscription [PLUS_PLAN_PRICE_ID cc, BUSINESS_PLAN_PRICE_ID cc],
           findItem subscription [AI_CREDIT_PRICE_ID cc],
           findItem subscription [USER_SEAT_PRICE_ID cc],
           findItem subscription [ACTIVE_FLOW_PRICE_ID cc],
           findItem subscription [PROJECT_PRICE_ID cc]].filterMap id).map
          (fun item => { id := some item.id, deleted := true }))
        ++ [ { id := none,
               price := some (if plan = PlanName.plus then PLUS_PLAN_PRICE_ID nc
                              else BUSINESS_PLAN_PRICE_ID nc),
               quantity := some 1 },
             { id := none, price := some (AI_CREDIT_PRICE_ID nc) } ]
        ++ handleOptionalItem false us (USER_SEAT_PRICE_ID nc)
            (findItem subscription [USER_SEAT_PRICE_ID cc])
        ++ handleOptionalItem false ef (ACTIVE_FLOW_PRICE_ID nc)
            (findItem subscription [ACTIVE_FLOW_PRICE_ID cc])
        ++ handleOptionalItem false ep (PROJECT_PRICE_ID nc)
            (findItem subscription [PROJECT_PRICE_ID cc]) := by
  simp [updateSubscriptionItems, hcy]

/-- Shape of the item batch when the cycle is unchanged: ids are reused and no
deletion pass runs. -/
theorem updateItems_same_cycle_shape (subscription : Subscription) (plan : PlanName)
    (c : BillingCycle) (us ef ep : Nat) :
    updateSubscriptionItems subscription plan c c us ef ep
      = [ { id := (findItem subscription [PLUS_PLAN_PRICE_ID c, BUSINESS_PLAN_PRICE_ID c]).map
              (fun item => item.id),
            price := some (if plan = PlanName.plus then PLUS_PLAN_PRICE_ID c
                           else BUSINESS_PLAN_PRICE_ID c),
            quantity := some 1 },
          { id := (findItem subscription [AI_CREDIT_PRICE_ID c]).map (fun item => item.id),
            price := some (AI_CREDIT_PRICE_ID c) } ]
        ++ handleOptionalItem true us (USER_SEAT_PRICE_ID c)
            (findItem subscription [USER_SEAT_PRICE_ID c])
        ++ handleOptionalItem true ef (ACTIVE_FLOW_PRICE_ID c)
            (findItem subscription [ACTIVE_FLOW_PRICE_ID c])
        ++ handleOptionalItem true ep (PROJECT_PRICE_ID c)
            (findItem subscription [PROJECT_PRICE_ID c]) := by
  simp [updateSubscriptionItems]

/-- Under a cycle change `handleOptionalItem` ignores the current item: it adds
a fresh positive-quantity entry or nothing. -/
theorem handleOptionalItem_false (q : Nat) (p : PriceId) (f : Option SubscriptionItem) :
    handleOptionalItem false q p f
      = if 0 < q then [{ id := none, price := some p, quantity := some q }] else [] := by
  by_cases h : 0 < q
  · simp [handleOptionalItem, h]
  · cases f <;> simp [handleOptionalItem, h]

/-- Under an unchanged cycle `handleOptionalItem` upserts or deletes. -/
theorem handleOptionalItem_true (q : Nat) (p : PriceId) (f : Option SubscriptionItem) :
    handleOptionalItem true q p f
      = if 0 < q then
          [{ id := f.map (fun item => item.id), price := some p, quantity := some q }]
        else
          match f with
          | some item => [{ id := some item.id, deleted := true }]
          | none => [] := by
  by_cases h : 0 < q
  · simp [handleOptionalItem, h]
  · cases f <;> simp [handleOptionalItem, h]

/-- C6: when the billing cycle changes, `updateSubscription` deletes every
recognised current item and re-adds the full set under the new cycle: every
current-cycle-priced item gets a deletion entry; the base plan is re-added
with no item id and quantity 1 under the new plan's new-cycle price; the AI
credit item is re-added; each addon appears exactly when its target quantity
is positive (with that quantity); exactly one non-deleted base entry exists;
and every non-deleted entry is priced under the new cycle's catalog. -/
theorem c6_cycle_switch_rebuilds_items (subscription : Subscription) (plan : PlanName)
    (cc nc : BillingCycle) (us ef ep : Nat)
    (hcy : nc ≠ cc)
    (hnd : pricesNodup subscription)
    (hbase : atMostOneBase cc subscription) :
    (∀ it ∈ subscription.items, it.price.cycleOf = cc →
      ({ id := some it.id, price := none, quantity := none, deleted := true } : UpdateItem)
        ∈ updateSubscriptionItems subscription plan cc nc us ef ep)
    ∧ ({ id := none,
         price := some (if plan = PlanName.plus then PLUS_PLAN_PRICE_ID nc
                        else BUSINESS_PLAN_PRICE_ID nc),
         quantity := some 1, deleted := false } : UpdateItem)
        ∈ updateSubscriptionItems subscription plan cc nc us ef ep
    ∧ ({ id := none, price := some (AI_CREDIT_PRICE_ID nc), quantity := none,
         deleted := false } : UpdateItem)
        ∈ updateSubscriptionItems subscription plan cc nc us ef ep
    ∧ (∀ k : AddonKind,
        (updateSubscriptionItems subscription plan cc nc us ef ep).filter
            (fun u => !u.deleted && u.price == some (addonPriceId k nc))
          = if 0 < addonTarget k us ef ep then
              [{ id := none, price := some (addonPriceId k nc),
                 quantity := some (addonTarget k us ef ep) }]
            else [])
    ∧ ((updateSubscriptionItems subscription plan cc nc us ef ep).filter
        (fun u => !u.deleted
          && (u.price == some (PLUS_PLAN_PRICE_ID nc)
              || u.price == some (BUSINESS_PLAN_PRICE_ID nc)))).length = 1
    ∧ (∀ u ∈ updateSubscriptionItems subscription plan cc nc us ef ep, u.deleted = false →
        ∀ q, u.price = some q → q.cycleOf = nc) := by
  have hcy' : ¬(nc = cc) := hcy
  rw [updateItems_cycle_change_shape subscription plan cc nc us ef ep hcy']
  refine ⟨?_, ?_, ?_, ?_, ?_, ?_⟩
  · intro it hit hcyc
    cases hpc : it.price with
    | plusPlan c =>
        rw [hpc] at hcyc
        simp only [PriceId.cycleOf] at hcyc
        rw [hcyc] at hpc
        have hfind : findItem subscription [PLUS_PLAN_PRICE_ID cc, BUSINESS_PLAN_PRICE_ID cc] = some it :=
          findItem_base_eq subscription cc hbase it hit (Or.inl hpc)
        exact List.mem_append_left _ (List.mem_append_left _ (List.mem_append_left _
          (List.mem_append_left _ (List.mem_map_of_mem _
            (List.mem_filterMap.mpr ⟨some it, by simp [hfind], rfl⟩)))))
    | businessPlan c =>
        rw [hpc] at hcyc
        simp only [PriceId.cycleOf] at hcyc
        rw [hcyc] at hpc
        have hfind : findItem subscription [PLUS_PLAN_PRICE_ID cc, BUSINESS_PLAN_PRICE_ID cc] = some it :=
          findItem_base_eq subscription cc hbase it hit (Or.inr hpc)
        exact List.mem_append_left _ (List.mem_append_left _ (List.mem_append_left _
          (List.mem_append_left _ (List.mem_map_of_mem _
            (List.mem_filterMap.mpr ⟨some it, by simp [hfind], rfl⟩)))))
    | aiCredit c =>
        rw [hpc] at hcyc
        simp only [PriceId.cycleOf] at hcyc
        rw [hcyc] at hpc
        have hfind : findItem subscription [AI_CREDIT_PRICE_ID cc] = some it :=
          findItem_single_eq subscription hnd (AI_CREDIT_PRICE_ID cc) it hit hpc
        exact List.mem_append_left _ (List.mem_append_left _ (List.mem_append_left _
          (List.mem_append_left _ (List.mem_map_of_mem _
            (List.mem_filterMap.mpr ⟨some it, by simp [hfind], rfl⟩)))))
    | userSeat c =>
        rw [hpc] at hcyc
        simp only [PriceId.cycleOf] at hcyc
        rw [hcyc] at hpc
        have hfind : findItem subscription [USER_SEAT_PRICE_ID cc] = some it :=
          findItem_single_eq subscription hnd (USER_SEAT_PRICE_ID cc) it hit hpc
        exact List.mem_append_left _ (List.mem_append_left _ (List.mem_append_left _
          (List.mem_append_left _ (List.mem_map_of_mem _
            (List.mem_filterMap.mpr ⟨some it, by simp [hfind], rfl⟩)))))
    | projectAddon c =>
        rw [hpc] at hcyc
        simp only [PriceId.cycleOf] at hcyc
        rw [hcyc] at hpc
        have hfind : findItem subscription [PROJECT_PRICE_ID cc] = some it :=
          findItem_single_eq subscription hnd (PROJECT_PRICE_ID cc) it hit hpc
        exact List.mem_append_left _ (List.mem_append_left _ (List.mem_append_left _
          (List.mem_append_left _ (List.mem_map_of_mem _
            (List.mem_filterMap.mpr ⟨some it, by simp [hfind], rfl⟩)))))
    | activeFlow c =>
        rw [hpc] at hcyc
        simp only [PriceId.cycleOf] at hcyc
        rw [hcyc] at hpc
        have hfind : findItem subscription [ACTIVE_FLOW_PRICE_ID cc] = some it :=
          findItem_single_eq subscription hnd (ACTIVE_FLOW_PRICE_ID cc) it hit hpc
        exact List.mem_append_left _ (List.mem_append_left _ (List.mem_append_left _
          (List.mem_append_left _ (List.mem_map_of_mem _
            (List.mem_filterMap.mpr ⟨some it, by simp [hfind], rfl⟩)))))
  · simp
  · simp
  · intro k
    have hdel : (([findItem subscription [PLUS_PLAN_PRICE_ID cc, BUSINESS_PLAN_PRICE_ID cc],
           findItem subscription [AI_CREDIT_PRICE_ID cc],
           findItem subscription [USER_SEAT_PRICE_ID cc],
           findItem subscription [ACTIVE_FLOW_PRICE_ID cc],
           findItem subscription [PROJECT_PRICE_ID cc]].filterMap id).map
          (fun item => ({ id := some item.id, deleted := true } : UpdateItem))).filter
          (fun u => !u.deleted && u.price == some (addonPriceId k nc)) = [] := by
      apply List.filter_eq_nil_iff.mpr
      intro u hu
      rcases List.mem_map.mp hu with ⟨it2, _, rfl⟩
      simp
    rw [List.filter_append, List.filter_append, List.filter_append, List.filter_append, hdel]
    rw [handleOptionalItem_false, handleOptionalItem_false, handleOptionalItem_false]
    cases k <;> rcases plan with _ | _ | _ <;>
      by_cases h1 : 0 < us <;> by_cases h2 : 0 < ef <;> by_cases h3 : 0 < ep <;>
        simp [addonPriceId, addonTarget, h1, h2, h3, PLUS_PLAN_PRICE_ID, BUSINESS_PLAN_PRICE_ID, AI_CREDIT_PRICE_ID, USER_SEAT_PRICE_ID, PROJECT_PRICE_ID, ACTIVE_FLOW_PRICE_ID]
  · have hdel : (([findItem subscription [PLUS_PLAN_PRICE_ID cc, BUSINESS_PLAN_PRICE_ID cc],
           findItem subscription [AI_CREDIT_PRICE_ID cc],
           findItem subscription [USER_SEAT_PRICE_ID cc],
           findItem subscription [ACTIVE_FLOW_PRICE_ID cc],
           findItem subscription [PROJECT_PRICE_ID cc]].filterMap id).map
          (fun item => ({ id := some item.id, deleted := true } : UpdateItem))).filter
          (fun u => !u.deleted
            && (u.price == some (PLUS_PLAN_PRICE_ID nc)
                || u.price == some (BUSINESS_PLAN_PRICE_ID nc))) = [] := by
      apply List.filter_eq_nil_iff.mpr
      intro u hu
      rcases List.mem_map.mp hu with ⟨it2, _, rfl⟩
      simp
    rw [List.filter_append, List.filter_append, List.filter_append, List.filter_append, hdel]
    rw [handleOptionalItem_false, handleOptionalItem_false, handleOptionalItem_false]
    rcases plan with _ | _ | _ <;>
      by_cases h1 : 0 < us <;> by_cases h2 : 0 < ef <;> by_cases h3 : 0 < ep <;>
        simp [h1, h2, h3, PLUS_PLAN_PRICE_ID, BUSINESS_PLAN_PRICE_ID, AI_CREDIT_PRICE_ID, USER_SEAT_PRICE_ID, PROJECT_PRICE_ID, ACTIVE_FLOW_PRICE_ID]
  · intro u hu hdel q hq
    simp only [List.mem_append] at hu
    rcases hu with ((((hu | hu) | hu) | hu) | hu)
    · rcases List.mem_map.mp hu with ⟨it2, _, rfl⟩
      cases hdel
    · rcases List.mem_cons.mp hu with h | h
      · rw [h] at hq
        simp only [Option.some.injEq] at hq
        rw [← hq]
        rcases plan with _ | _ | _ <;> simp [PriceId.cycleOf, PLUS_PLAN_PRICE_ID, BUSINESS_PLAN_PRICE_ID]
      · rcases List.mem_cons.mp h with h2 | h2
        · rw [h2] at hq
          simp only [Option.some.injEq] at hq
          rw [← hq]
          rfl
        · cases h2
    · rw [handleOptionalItem_false] at hu
      by_cases hq1 : 0 < us
      · rw [if_pos hq1] at hu
        rcases List.mem_cons.mp hu with h | h
        · rw [h] at hq
          simp only [Option.some.injEq] at hq
          rw [← hq]
          rfl
        · cases h
      · rw [if_neg hq1] at hu
        cases hu
    · rw [handleOptionalItem_false] at hu
      by_cases hq1 : 0 < ef
      · rw [if_pos hq1] at hu
        rcases List.mem_cons.mp hu with h | h
        · rw [h] at hq
          simp only [Option.some.injEq] at hq
          rw [← hq]
          rfl
        · cases h
      · rw [if_neg hq1] at hu
        cases hu
    · rw [handleOptionalItem_false] at hu
      by_cases hq1 : 0 < ep
      · rw [if_pos hq1] at hu
        rcases List.mem_cons.mp hu with h | h
        · rw [h] at hq
          simp only [Option.some.injEq] at hq
          rw [← hq]
          rfl
        · cases h
      · rw [if_neg hq1] at hu
        cases hu

/-- Every entry `handleOptionalItem` emits is either a deletion (no price) or
an upsert carrying the positive target quantity. -/
theorem handleOptionalItem_mem_cases (b : Bool) (q : Nat) (p : PriceId)
    (f : Option SubscriptionItem) :
    ∀ u ∈ handleOptionalItem b q p f, u.price = none ∨ (u.quantity = some q ∧ 0 < q) := by
  intro u hu
  cases b with
  | true =>
      rw [handleOptionalItem_true] at hu
      by_cases hq : 0 < q
      · rw [if_pos hq] at hu
        rcases List.mem_cons.mp hu with h | h
        · right
          rw [h]
          exact ⟨rfl, hq⟩
        · cases h
      · rw [if_neg hq] at hu
        cases f with
        | some item =>
            rcases List.mem_cons.mp hu with h | h
            · left
              rw [h]
            · cases h
        | none => cases hu
  | false =>
      rw [handleOptionalItem_false] at hu
      by_cases hq : 0 < q
      · rw [if_pos hq] at hu
        rcases List.mem_cons.mp hu with h | h
        · right
          rw [h]
          exact ⟨rfl, hq⟩
        · cases h
      · rw [if_neg hq] at hu
        cases hu

/-- C7: an addon whose target quantity is 0 is removed, never kept at zero.
With an unchanged cycle, a present addon item is marked deleted by the item
batch; `buildPhaseItems` emits no item of a zero-target addon kind; and
neither the item batch nor the phase items ever carry an addon entry with
quantity 0. -/
theorem c7_zero_addons_removed_not_zeroed :
    (∀ (subscription : Subscription) (plan : PlanName) (c : BillingCycle) (us ef ep : Nat),
      pricesNodup subscription → ∀ k : AddonKind, addonTarget k us ef ep = 0 →
      ∀ it ∈ subscription.items, it.price = addonPriceId k c →
        ({ id := some it.id, price := none, quantity := none, deleted := true } : UpdateItem)
          ∈ updateSubscriptionItems subscription plan c c us ef ep)
    ∧ (∀ (cycle : BillingCycle) (plan : PlanName) (us ep ef : Nat) (k : AddonKind),
        addonTarget k us ef ep = 0 →
        ∀ item ∈ buildPhaseItems cycle plan us ep ef, item.price ≠ addonPriceId k cycle)
    ∧ (∀ (subscription : Subscription) (plan : PlanName) (cc nc : BillingCycle) (us ef ep : Nat),
        ∀ u ∈ updateSubscriptionItems subscription plan cc nc us ef ep,
        ∀ (k : AddonKind) (c2 : BillingCycle), u.price = some (addonPriceId k c2) →
          u.quantity ≠ some 0)
    ∧ (∀ (cycle : BillingCycle) (plan : PlanName) (us ep ef : Nat),
        ∀ item ∈ buildPhaseItems cycle plan us ep ef,
        ∀ (k : AddonKind) (c2 : BillingCycle), item.price = addonPriceId k c2 →
          item.quantity ≠ some 0) := by
  refine ⟨?_, ?_, ?_, ?_⟩
  · intro subscription plan c us ef ep hnd k htgt it hit hp
    rw [updateItems_same_cycle_shape]
    cases k with
    | userSeat =>
        simp only [addonTarget] at htgt
        subst htgt
        have hfind := findItem_single_eq subscription hnd (USER_SEAT_PRICE_ID c) it hit hp
        refine List.mem_append_left _ (List.mem_append_left _ (List.mem_append_right _ ?_))
        simp [handleOptionalItem_true, hfind]
    | activeFlow =>
        simp only [addonTarget] at htgt
        subst htgt
        have hfind := findItem_single_eq subscription hnd (ACTIVE_FLOW_PRICE_ID c) it hit hp
        refine List.mem_append_left _ (List.mem_append_right _ ?_)
        simp [handleOptionalItem_true, hfind]
    | projectAddon =>
        simp only [addonTarget] at htgt
        subst htgt
        have hfind := findItem_single_eq subscription hnd (PROJECT_PRICE_ID c) it hit hp
        refine List.mem_append_right _ ?_
        simp [handleOptionalItem_true, hfind]
  · intro cycle plan us ep ef k htgt
    cases k with
    | userSeat =>
        simp only [addonTarget] at htgt
        subst htgt
        rcases plan with _ | _ | _ <;> by_cases h2 : 0 < ef <;> by_cases h3 : 0 < ep <;>
          simp [buildPhaseItems, addonPriceId, h2, h3, PLUS_PLAN_PRICE_ID,
            BUSINESS_PLAN_PRICE_ID, AI_CREDIT_PRICE_ID, USER_SEAT_PRICE_ID,
            PROJECT_PRICE_ID, ACTIVE_FLOW_PRICE_ID]
    | activeFlow =>
        simp only [addonTarget] at htgt
        subst htgt
        rcases plan with _ | _ | _ <;> by_cases h1 : 0 < us <;> by_cases h3 : 0 < ep <;>
          simp [buildPhaseItems, addonPriceId, h1, h3, PLUS_PLAN_PRICE_ID,
            BUSINESS_PLAN_PRICE_ID, AI_CREDIT_PRICE_ID, USER_SEAT_PRICE_ID,
            PROJECT_PRICE_ID, ACTIVE_FLOW_PRICE_ID]
    | projectAddon =>
        simp only [addonTarget] at htgt
        subst htgt
        rcases plan with _ | _ | _ <;> by_cases h1 : 0 < us <;> by_cases h2 : 0 < ef <;>
          simp [buildPhaseItems, addonPriceId, h1, h2, PLUS_PLAN_PRICE_ID,
            BUSINESS_PLAN_PRICE_ID, AI_CREDIT_PRICE_ID, USER_SEAT_PRICE_ID,
            PROJECT_PRICE_ID, ACTIVE_FLOW_PRICE_ID]
  · intro subscription plan cc nc us ef ep u hu k c2 hup
    simp only [updateSubscriptionItems, List.mem_append] at hu
    rcases hu with ((((hu | hu) | hu) | hu) | hu)
    · by_cases hcc : nc = cc
      · rw [if_pos hcc] at hu
        cases hu
      · rw [if_neg hcc] at hu
        rcases List.mem_map.mp hu with ⟨it2, _, rfl⟩
        cases hup
    · rcases List.mem_cons.mp hu with h | h
      · rw [h] at hup
        rcases plan with _ | _ | _ <;> cases k <;>
          simp [addonPriceId, PLUS_PLAN_PRICE_ID, BUSINESS_PLAN_PRICE_ID,
            USER_SEAT_PRICE_ID, PROJECT_PRICE_ID, ACTIVE_FLOW_PRICE_ID] at hup
      · rcases List.mem_cons.mp h with h2 | h2
        · rw [h2] at hup
          cases k <;>
            simp [addonPriceId, AI_CREDIT_PRICE_ID, USER_SEAT_PRICE_ID,
              PROJECT_PRICE_ID, ACTIVE_FLOW_PRICE_ID] at hup
        · cases h2
    · rcases handleOptionalItem_mem_cases _ _ _ _ u hu with h | ⟨hq, hpos⟩
      · rw [h] at hup
        cases hup
      · rw [hq]
        intro hcontra
        simp only [Option.some.injEq] at hcontra
        rw [hcontra] at hpos
        exact Nat.lt_irrefl 0 hpos
    · rcases handleOptionalItem_mem_cases _ _ _ _ u hu with h | ⟨hq, hpos⟩
      · rw [h] at hup
        cases hup
      · rw [hq]
        intro hcontra
        simp only [Option.some.injEq] at hcontra
        rw [hcontra] at hpos
        exact Nat.lt_irrefl 0 hpos
    · rcases handleOptionalItem_mem_cases _ _ _ _ u hu with h | ⟨hq, hpos⟩
      · rw [h] at hup
        cases hup
      · rw [hq]
        intro hcontra
        simp only [Option.some.injEq] at hcontra
        rw [hcontra] at hpos
        exact Nat.lt_irrefl 0 hpos
  · intro cycle plan us ep ef item hitem k c2 hup
    simp only [buildPhaseItems, List.mem_append] at hitem
    rcases hitem with ((hitem | hitem) | hitem) | hitem
    · rcases List.mem_cons.mp hitem with h | h
      · rw [h]
        intro hcontra
        simp only [Option.some.injEq] at hcontra
        cases hcontra
      · rcases List.mem_cons.mp h with h2 | h2
        · rw [h2]
          intro hcontra
          cases hcontra
        · cases h2
    · by_cases h1 : 0 < us
      · rw [if_pos h1] at hitem
        rcases List.mem_cons.mp hitem with h | h
        · rw [h]
          intro hcontra
          simp only [Option.some.injEq] at hcontra
          rw [hcontra] at h1
          exact Nat.lt_irrefl 0 h1
        · cases h
      · rw [if_neg h1] at hitem
        cases hitem
    · by_cases h1 : 0 < ep
      · rw [if_pos h1] at hitem
        rcases List.mem_cons.mp hitem with h | h
        · rw [h]
          intro hcontra
          simp only [Option.some.injEq] at hcontra
          rw [hcontra] at h1
          exact Nat.lt_irrefl 0 h1
        · cases h
      · rw [if_neg h1] at hitem
        cases hitem
    · by_cases h1 : 0 < ef
      · rw [if_pos h1] at hitem
        rcases List.mem_cons.mp hitem with h | h
        · rw [h]
          intro hcontra
          simp only [Option.some.injEq] at hcontra
          rw [hcontra] at h1
          exact Nat.lt_irrefl 0 h1
        · cases h
      · rw [if_neg h1] at hitem
        cases hitem

/-- C10: on a deferred cycle switch where no current item carries either of the
current cycle's base prices, the phase-1 snapshot is rebuilt with the current
plan silently defaulted to Plus: the snapshot is `buildPhaseItems` under the
old cycle with plan Plus and the recovered addon quantities, phase 1 of the
submitted payload carries it, and its first item is the Plus base price with
quantity 1. -/
theorem c10_unrecognized_base_defaults_to_plus (clock : Clock) (subscription : Subscription)
    (newPlan : PlanName) (cc nc : BillingCycle) (us ep ef : Nat) (fd : Bool)
    (hcy : ¬(cc = nc))
    (hnobase : ∀ it ∈ subscription.items,
      it.price ≠ PLUS_PLAN_PRICE_ID cc ∧ it.price ≠ BUSINESS_PLAN_PRICE_ID cc) :
    currentPhaseItemsOf subscription cc nc
      = buildPhaseItems cc PlanName.plus
          (((subscription.items.find? (fun item => item.price = USER_SEAT_PRICE_ID cc)).bind
              (fun item => item.quantity)).getD 0)
          (((subscription.items.find? (fun item => item.price = PROJECT_PRICE_ID cc)).bind
              (fun item => item.quantity)).getD 0)
          (((subscription.items.find? (fun item => item.price = ACTIVE_FLOW_PRICE_ID cc)).bind
              (fun item => item.quantity)).getD 0)
    ∧ (updateSubscriptionSchedulePayload clock subscription newPlan cc nc us ep ef fd).phases.head?
        = some { items := currentPhaseItemsOf subscription cc nc,
                 start_date := (getSubscriptionCycleDates clock subscription).startDate,
                 end_date := some (getSubscriptionCycleDates clock subscription).endDate }
    ∧ (currentPhaseItemsOf subscription cc nc).head?
        = some { price := PLUS_PLAN_PRICE_ID cc, quantity := some 1 } := by
  have hany : subscription.items.any (fun item =>
      [PLUS_PLAN_PRICE_ID cc, BUSINESS_PLAN_PRICE_ID cc].contains item.price) = false := by
    apply List.any_eq_false.mpr
    intro it hit
    have h := hnobase it hit
    simp [h.1, h.2]
  have hsnap : currentPhaseItemsOf subscription cc nc
      = buildPhaseItems cc PlanName.plus
          (((subscription.items.find? (fun item => item.price = USER_SEAT_PRICE_ID cc)).bind
              (fun item => item.quantity)).getD 0)
          (((subscription.items.find? (fun item => item.price = PROJECT_PRICE_ID cc)).bind
              (fun item => item.quantity)).getD 0)
          (((subscription.items.find? (fun item => item.price = ACTIVE_FLOW_PRICE_ID cc)).bind
              (fun item => item.quantity)).getD 0) := by
    rw [currentPhaseItemsOf, if_neg hcy]
    simp only [hany, Bool.false_eq_true, if_false]
  refine ⟨hsnap, ?_, ?_⟩
  · cases fd <;> simp [updateSubscriptionSchedulePayload]
  · rw [hsnap]
    simp [buildPhaseItems]

/-- A subscription that does carry the active-flow addon item under the
monthly cycle, with its own period bounds and a pending cancellation. -/
def c3SubscriptionMonthly : Subscription :=
  { id := 2, customer := 8,
    items := [{ id := 11, price := ACTIVE_FLOW_PRICE_ID BillingCycle.monthly,
                quantity := some 3, current_period_start := 100, current_period_end := 200 }],
    cancel_at := some 150 }

/-- The same scenario with the annual-cycle active-flow price. -/
def c3SubscriptionAnnual : Subscription :=
  { id := 3, customer := 9,
    items := [{ id := 12, price := ACTIVE_FLOW_PRICE_ID BillingCycle.annual,
                quantity := some 3, current_period_start := 300, current_period_end := 400 }],
    cancel_at := none }

/-- C3 (code bug): the item scan of `getSubscriptionCycleDates` compares each
price id against the per-cycle catalog record object itself, so it matches
nothing: even when an active-flow item is present (under either cycle), the
returned window is the calendar-month default with no cancellation, instead of
the item's `current_period_start`/`current_period_end` with `cancel_at`
surfaced.  The scan is constantly empty on every subscription. -/
theorem c3_window_scan_never_matches :
    getSubscriptionCycleDates exampleClock c3SubscriptionMonthly
      = { startDate := 1000, endDate := 2000, cancelDate := none }
    ∧ getSubscriptionCycleDates exampleClock c3SubscriptionAnnual
      = { startDate := 1000, endDate := 2000, cancelDate := none }
    ∧ (∀ (clock : Clock) (subscription : Subscription),
        getSubscriptionCycleDates clock subscription
          = { startDate := clock.monthStart, endDate := clock.monthEnd, cancelDate := none }) := by
  have hfind : ∀ subscription : Subscription,
      subscription.items.find? (fun item =>
        jsIncludes [JsVal.obj ACTIVE_FLOW_PRICE_ID] (JsVal.str item.price)) = none := by
    intro subscription
    apply List.find?_eq_none.mpr
    intro x _
    simp [jsIncludes, jsEqb]
  have hgen : ∀ (clock : Clock) (subscription : Subscription),
      getSubscriptionCycleDates clock subscription
        = { startDate := clock.monthStart, endDate := clock.monthEnd, cancelDate := none } := by
    intro clock subscription
    simp [getSubscriptionCycleDates, hfind subscription]
  exact ⟨hgen exampleClock c3SubscriptionMonthly, hgen exampleClock c3SubscriptionAnnual, hgen⟩

/-- C8: the plan-change boundary never throws.  The result is always one of
the two redirect paths; it is the success path (encoding upgrade/downgrade and
the new plan) exactly when configuration, both reads and all writes succeed,
and the error path on missing configuration, a failed read or a rejected
write. -/
theorem c8_handle_update_never_throws (env : StripeEnv) (clock : Clock)
    (params : HandleSubscriptionUpdateParams) (fresh : Nat) :
    (handleSubscriptionUpdate env clock params fresh
        = successRedirectPath params.isUpgrade params.newPlan
      ∨ handleSubscriptionUpdate env clock params fresh = errorRedirectPath)
    ∧ (∀ sub scheds, env.configured = true → env.retrieved = some sub →
        env.listed = some scheds →
        (handleSubscriptionUpdateCalls clock params.isUpgrade params.isFreeDowngrade
            params.newPlan params.currentCycle params.newCycle params.extraUserSeats
            params.extraProjects params.extraActiveFlows sub scheds fresh).all env.writeOk = true →
        handleSubscriptionUpdate env clock params fresh
          = successRedirectPath params.isUpgrade params.newPlan)
    ∧ (env.configured = false →
        handleSubscriptionUpdate env clock params fresh = errorRedirectPath)
    ∧ (env.retrieved = none →
        handleSubscriptionUpdate env clock params fresh = errorRedirectPath)
    ∧ (env.listed = none →
        handleSubscriptionUpdate env clock params fresh = errorRedirectPath)
    ∧ (∀ sub scheds, env.retrieved = some sub → env.listed = some scheds →
        (handleSubscriptionUpdateCalls clock params.isUpgrade params.isFreeDowngrade
            params.newPlan params.currentCycle params.newCycle params.extraUserSeats
            params.extraProjects params.extraActiveFlows sub scheds fresh).all env.writeOk = false →
        handleSubscriptionUpdate env clock params fresh = errorRedirectPath) := by
  refine ⟨?_, ?_, ?_, ?_, ?_, ?_⟩
  · cases hc : env.configured with
    | false => right; simp [handleSubscriptionUpdate, hc]
    | true =>
        cases hr : env.retrieved with
        | none => right; simp [handleSubscriptionUpdate, hc, hr]
        | some sub =>
            cases hl : env.listed with
            | none => right; simp [handleSubscriptionUpdate, hc, hr, hl]
            | some scheds =>
                by_cases hw : (handleSubscriptionUpdateCalls clock params.isUpgrade
                    params.isFreeDowngrade params.newPlan params.currentCycle params.newCycle
                    params.extraUserSeats params.extraProjects params.extraActiveFlows
                    sub scheds fresh).all env.writeOk = true
                · left; simp [handleSubscriptionUpdate, hc, hr, hl, hw]
                · right; simp [handleSubscriptionUpdate, hc, hr, hl, hw]
  · intro sub scheds hc hr hl hw
    simp [handleSubscriptionUpdate, hc, hr, hl, hw]
  · intro hc
    simp [handleSubscriptionUpdate, hc]
  · intro hr
    cases hc : env.configured with
    | false => simp [handleSubscriptionUpdate, hc]
    | true => simp [handleSubscriptionUpdate, hc, hr]
  · intro hl
    cases hc : env.configured with
    | false => simp [handleSubscriptionUpdate, hc]
    | true =>
        cases hr : env.retrieved with
        | none => simp [handleSubscriptionUpdate, hc, hr]
        | some sub => simp [handleSubscriptionUpdate, hc, hr, hl]
  · intro sub scheds hr hl hw
    cases hc : env.configured with
    | false => simp [handleSubscriptionUpdate, hc]
    | true => simp [handleSubscriptionUpdate, hc, hr, hl, hw]

/-- C9: the trial gift has three status-determined outcomes and never throws.
With no subscription or a CANCELED one, the gift (trial end and plan) is
stored under the (platform, customer) key with a 15-hour expiry; with a
TRIALING subscription, the trial end is extended immediately; with any other
existing subscription, a descriptive result is returned with no effect; and
every internal error (a throwing lookup, a missing customer id, or a failed
write mid-sequence) is returned as the unknown-error message, never raised. -/
theorem c9_gift_trial_outcomes (env : GiftEnv) (clock : Clock) (months : Nat)
    (plan : PlanName) :
    (∀ (user : GiftUser) (pid : Nat) (pp : PlatformPlanRow) (cid : Nat),
      env.stripeConfigured = true →
      env.identityFound = Except.ok true →
      env.userResult = Except.ok (some user) →
      user.platformId = some pid →
      user.platformRole = PlatformRole.admin →
      env.planResult = Except.ok pp →
      pp.stripeCustomerId = some cid →
      (pp.stripeSubscriptionId = none
        ∨ pp.stripeSubscriptionStatus = some ApSubscriptionStatus.canceled) →
      env.setEligibleOk = true → env.redisSetOk = true → env.redisExpireOk = true →
      giftTrialForCustomer env clock months plan
        = ([GiftEffect.setEligibleForTrial pp.platformId plan,
            GiftEffect.redisSetGift pp.platformId cid (clock.addMonths months) plan,
            GiftEffect.redisExpireGift pp.platformId cid (60 * 60 * 15)], none))
    ∧ (∀ (user : GiftUser) (pid : Nat) (pp : PlatformPlanRow) (cid sid : Nat),
      env.stripeConfigured = true →
      env.identityFound = Except.ok true →
      env.userResult = Except.ok (some user) →
      user.platformId = some pid →
      user.platformRole = PlatformRole.admin →
      env.planResult = Except.ok pp →
      pp.stripeCustomerId = some cid →
      pp.stripeSubscriptionId = some sid →
      pp.stripeSubscriptionStatus = some ApSubscriptionStatus.trialing →
      env.stripeUpdateOk = true →
      giftTrialForCustomer env clock months plan
        = ([GiftEffect.stripeTrialExtend sid (clock.addMonths months)], none))
    ∧ (∀ (user : GiftUser) (pid : Nat) (pp : PlatformPlanRow) (cid sid : Nat),
      env.stripeConfigured = true →
      env.identityFound = Except.ok true →
      env.userResult = Except.ok (some user) →
      user.platformId = some pid →
      user.platformRole = PlatformRole.admin →
      env.planResult = Except.ok pp →
      pp.stripeCustomerId = some cid →
      pp.stripeSubscriptionId = some sid →
      pp.stripeSubscriptionStatus ≠ some ApSubscriptionStatus.trialing →
      pp.stripeSubscriptionStatus ≠ some ApSubscriptionStatus.canceled →
      giftTrialForCustomer env clock months plan
        = ([], some GiftMessage.alreadyActiveSubscription))
    ∧ (∀ e, env.stripeConfigured = true → env.identityFound = Except.error e →
        giftTrialForCustomer env clock months plan = ([], some GiftMessage.unknownError))
    ∧ (∀ e, env.stripeConfigured = true → env.identityFound = Except.ok true →
        env.userResult = Except.error e →
        giftTrialForCustomer env clock months plan = ([], some GiftMessage.unknownError))
    ∧ (∀ (user : GiftUser) (pid : Nat) e,
        env.stripeConfigured = true → env.identityFound = Except.ok true →
        env.userResult = Except.ok (some user) → user.platformId = some pid →
        user.platformRole = PlatformRole.admin → env.planResult = Except.error e →
        giftTrialForCustomer env clock months plan = ([], some GiftMessage.unknownError))
    ∧ (∀ (user : GiftUser) (pid : Nat) (pp : PlatformPlanRow),
        env.stripeConfigured = true → env.identityFound = Except.ok true →
        env.userResult = Except.ok (some user) → user.platformId = some pid →
        user.platformRole = PlatformRole.admin → env.planResult = Except.ok pp →
        pp.stripeCustomerId = none →
        giftTrialForCustomer env clock months plan = ([], some GiftMessage.unknownError))
    ∧ (env.stripeConfigured = false →
        giftTrialForCustomer env clock months plan
          = ([], some GiftMessage.stripeNotConfigured)) := by
  refine ⟨?_, ?_, ?_, ?_, ?_, ?_, ?_, ?_⟩
  · intro user pid pp cid hconf hid huser hupid hurole hplan hcid hbranch hse hrs hre
    rcases hbranch with hb | hb <;>
      simp [giftTrialForCustomer, hconf, hid, huser, hupid, hurole, hplan, hcid,
        hse, hrs, hre, hb]
  · intro user pid pp cid sid hconf hid huser hupid hurole hplan hcid hsid hstat hupd
    simp [giftTrialForCustomer, hconf, hid, huser, hupid, hurole, hplan, hcid,
      hsid, hstat, hupd]
  · intro user pid pp cid sid hconf hid huser hupid hurole hplan hcid hsid hst1 hst2
    simp [giftTrialForCustomer, hconf, hid, huser, hupid, hurole, hplan, hcid,
      hsid, hst1, hst2]
  · intro e hconf hid
    simp [giftTrialForCustomer, hconf, hid]
  · intro e hconf hid huser
    simp [giftTrialForCustomer, hconf, hid, huser]
  · intro user pid e hconf hid huser hupid hurole hplan
    simp [giftTrialForCustomer, hconf, hid, huser, hupid, hurole, hplan]
  · intro user pid pp hconf hid huser hupid hurole hplan hcid
    simp [giftTrialForCustomer, hconf, hid, huser, hupid, hurole, hplan, hcid]
  · intro hconf
    simp [giftTrialForCustomer, hconf]

/-- Witness for the amended C4 theorem at the two-schedule scenario. -/
theorem c4_first_listed_relevant_wins_witness :
    (scheduleUpdates (handleSubscriptionUpdateCalls exampleClock false false PlanName.plus
        BillingCycle.monthly BillingCycle.monthly 0 0 0 c4ObservedSubscription
        [c4StatusOnlySchedule, c4BoundSchedule] 99)).map (fun u => u.1)
      = [c4StatusOnlySchedule.id] := by
  exact (c4_first_listed_relevant_wins exampleClock false PlanName.plus
    BillingCycle.monthly BillingCycle.monthly 0 0 0 c4ObservedSubscription
    [c4StatusOnlySchedule, c4BoundSchedule] 99 c4StatusOnlySchedule [c4BoundSchedule]
    (by decide) (by decide) (by decide) (by decide)).1

/-- Witness for C5 at the two-schedule scenario: after two identical deferred
calls exactly one schedule is relevant. -/
theorem c5_deferred_idempotent_witness :
    (relevantSchedules c4ObservedSubscription
      (applyCalls
        (applyCalls [c4StatusOnlySchedule, c4BoundSchedule]
          (handleSubscriptionUpdateCalls exampleClock false false PlanName.plus
            BillingCycle.monthly BillingCycle.monthly 0 0 0 c4ObservedSubscription
            [c4StatusOnlySchedule, c4BoundSchedule] 99))
        (handleSubscriptionUpdateCalls exampleClock false false PlanName.plus
          BillingCycle.monthly BillingCycle.monthly 0 0 0 c4ObservedSubscription
          (applyCalls [c4StatusOnlySchedule, c4BoundSchedule]
            (handleSubscriptionUpdateCalls exampleClock false false PlanName.plus
              BillingCycle.monthly BillingCycle.monthly 0 0 0 c4ObservedSubscription
              [c4StatusOnlySchedule, c4BoundSchedule] 99))
          77))).length = 1 := by
  exact (c5_deferred_idempotent exampleClock false PlanName.plus
    BillingCycle.monthly BillingCycle.monthly 0 0 0 c4ObservedSubscription
    [c4StatusOnlySchedule, c4BoundSchedule] 99 77
    (by decide) (by decide) (by decide)).2.2.2.2

/-- A concrete monthly subscription: Plus base and two user seats. -/
def c6ExampleSubscription : Subscription :=
  { id := 5, customer := 6,
    items := [ { id := 1, price := PLUS_PLAN_PRICE_ID BillingCycle.monthly,
                 quantity := some 1, current_period_start := 0, current_period_end := 0 },
               { id := 2, price := USER_SEAT_PRICE_ID BillingCycle.monthly,
                 quantity := some 2, current_period_start := 0, current_period_end := 0 } ],
    cancel_at := none }

/-- Witness for C6 at a monthly-to-annual switch: the batch has exactly one
non-deleted base entry, priced under the annual catalog. -/
theorem c6_cycle_switch_rebuilds_items_witness :
    ((updateSubscriptionItems c6ExampleSubscription PlanName.business
        BillingCycle.monthly BillingCycle.annual 0 1 0).filter
      (fun u => !u.deleted
        && (u.price == some (PLUS_PLAN_PRICE_ID BillingCycle.annual)
            || u.price == some (BUSINESS_PLAN_PRICE_ID BillingCycle.annual)))).length = 1 := by
  exact (c6_cycle_switch_rebuilds_items c6ExampleSubscription PlanName.business
    BillingCycle.monthly BillingCycle.annual 0 1 0
    (by decide) (by unfold pricesNodup; decide) (by unfold atMostOneBase; decide)).2.2.2.2.1

/-- Witness for C7: with a zero seat target under an unchanged cycle, the
existing seat item (id 2) gets a deletion entry in the batch. -/
theorem c7_zero_addons_removed_not_zeroed_witness :
    ({ id := some 2, price := none, quantity := none, deleted := true } : UpdateItem)
      ∈ updateSubscriptionItems c6ExampleSubscription PlanName.plus
          BillingCycle.monthly BillingCycle.monthly 0 0 0 := by
  exact c7_zero_addons_removed_not_zeroed.1 c6ExampleSubscription PlanName.plus
    BillingCycle.monthly 0 0 0 (by unfold pricesNodup; decide) AddonKind.userSeat rfl
    { id := 2, price := USER_SEAT_PRICE_ID BillingCycle.monthly,
      quantity := some 2, current_period_start := 0, current_period_end := 0 }
    (by decide) rfl

/-- A provider environment where configuration, reads and writes all succeed. -/
def c8EnvironmentOk : StripeEnv :=
  { configured := true, retrieved := some c4ObservedSubscription,
    listed := some [], writeOk := fun _ => true }

/-- A concrete upgrade request. -/
def c8ExampleParams : HandleSubscriptionUpdateParams :=
  { subscriptionId := 1, extraActiveFlows := 0, isUpgrade := true,
    isFreeDowngrade := false, newPlan := PlanName.business,
    newCycle := BillingCycle.monthly, currentCycle := BillingCycle.monthly,
    extraProjects := 0, extraUserSeats := 0 }

/-- Witness for C8: with everything succeeding the boundary returns the
success redirect path for an upgrade to Business. -/
theorem c8_handle_update_never_throws_witness :
    handleSubscriptionUpdate c8EnvironmentOk exampleClock c8ExampleParams 99
      = successRedirectPath true PlanName.business := by
  exact (c8_handle_update_never_throws c8EnvironmentOk exampleClock c8ExampleParams 99).2.1
    c4ObservedSubscription [] rfl rfl rfl (by decide)

/-- A platform with a Stripe customer but no subscription. -/
def c9PlanRowNoSubscription : PlatformPlanRow :=
  { platformId := 4, stripeCustomerId := some 77,
    stripeSubscriptionId := none, stripeSubscriptionStatus := none }

/-- A gift-trial environment where every lookup and write succeeds and the
platform has no subscription. -/
def c9GiftEnvStored : GiftEnv :=
  { stripeConfigured := true, identityFound := Except.ok true,
    userResult := Except.ok (some { platformId := some 4, platformRole := PlatformRole.admin }),
    planResult := Except.ok c9PlanRowNoSubscription,
    setEligibleOk := true, redisSetOk := true, redisExpireOk := true, stripeUpdateOk := true }

/-- Witness for C9: with no subscription the gift is stored in the ephemeral
store with the 15-hour expiry. -/
theorem c9_gift_trial_outcomes_witness :
    giftTrialForCustomer c9GiftEnvStored exampleClock 2 PlanName.plus
      = ([GiftEffect.setEligibleForTrial 4 PlanName.plus,
          GiftEffect.redisSetGift 4 77 (exampleClock.addMonths 2) PlanName.plus,
          GiftEffect.redisExpireGift 4 77 (60 * 60 * 15)], none) := by
  exact (c9_gift_trial_outcomes c9GiftEnvStored exampleClock 2 PlanName.plus).1
    { platformId := some 4, platformRole := PlatformRole.admin } 4
    c9PlanRowNoSubscription 77 rfl rfl rfl rfl rfl rfl rfl (Or.inl rfl) rfl rfl rfl

/-- A subscription with no recognised base item under the monthly cycle. -/
def c10ExampleSubscription : Subscription :=
  { id := 13, customer := 14,
    items := [ { id := 2, price := USER_SEAT_PRICE_ID BillingCycle.monthly,
                 quantity := some 2, current_period_start := 0, current_period_end := 0 } ],
    cancel_at := none }

/-- Witness for C10: the rebuilt phase-1 snapshot starts with the Plus base
price even though the subscription had no base item at all. -/
theorem c10_unrecognized_base_defaults_to_plus_witness :
    (currentPhaseItemsOf c10ExampleSubscription BillingCycle.monthly BillingCycle.annual).head?
      = some { price := PLUS_PLAN_PRICE_ID BillingCycle.monthly, quantity := some 1 } := by
  exact (c10_unrecognized_base_defaults_to_plus exampleClock c10ExampleSubscription
    PlanName.plus BillingCycle.monthly BillingCycle.annual 0 0 0 false
    (by decide) (by decide)).2.2
